import Mathlib

/-!
# Verification of the md2pdf theming and color-accessibility subsystem

A shallow embedding of the color model (`md2pdf/color_utils.py`), the theme
validators and CSS generator (`md2pdf/theme_builder.py`), and the decision
points of the interactive wizard, together with proofs of the specified
properties.

Python strings are modelled as `List Char`.  Python `int` is modelled as `ℤ`,
Python `float` arithmetic on colors as `ℝ` (for the WCAG luminance / contrast
computations, whose exponent 2.4 is irrational) and as `ℚ` where the source
only performs field operations and truncation (HSL conversion, the
darken/lighten interpolation).  Fallible Python functions (those documented to
raise `ValueError`) are modelled with `Except String`.
-/

namespace Md2Pdf

/-! ## Python string primitives

`pyIsSpace` models the ASCII part of the whitespace class stripped by
`str.strip()`; all literals considered in this development contain only ASCII
whitespace.  `pyLowerChar` models `str.lower()` on the ASCII range; no cased
non-ASCII character is lowercased anywhere in the claims. -/

def pyIsSpace (c : Char) : Bool :=
  c.toNat = 32 || c.toNat = 9 || c.toNat = 10 || c.toNat = 13 ||
  c.toNat = 11 || c.toNat = 12

/-- Python `str.strip()`: remove leading and trailing whitespace. -/
def pyStrip (l : List Char) : List Char :=
  ((l.dropWhile pyIsSpace).reverse.dropWhile pyIsSpace).reverse

def pyLowerChar (c : Char) : Char :=
  if 65 ≤ c.toNat ∧ c.toNat ≤ 90 then Char.ofNat (c.toNat + 32) else c

/-- Python `str.lower()` (ASCII case mapping). -/
def pyToLower (l : List Char) : List Char := l.map pyLowerChar

def isAsciiDigit (c : Char) : Bool := 48 ≤ c.toNat && c.toNat ≤ 57

/-- The characters accepted as hexadecimal digits by Python `int(_, 16)`. -/
def isHexDigitPy (c : Char) : Bool :=
  isAsciiDigit c || (97 ≤ c.toNat && c.toNat ≤ 102) ||
  (65 ≤ c.toNat && c.toNat ≤ 70)

/-- Lowercase hexadecimal digit, the alphabet `[0-9a-f]` of the spec. -/
def isLowerHexDigit (c : Char) : Bool :=
  isAsciiDigit c || (97 ≤ c.toNat && c.toNat ≤ 102)

def hexVal (c : Char) : ℕ :=
  if isAsciiDigit c then c.toNat - 48
  else if 97 ≤ c.toNat && c.toNat ≤ 102 then c.toNat - 87
  else if 65 ≤ c.toNat && c.toNat ≤ 70 then c.toNat - 55
  else 0

/-! ## Python `int(s, 16)`

CPython's integer literal parser: optional surrounding whitespace, an optional
sign, an optional `0x`/`0X` prefix (an underscore may directly follow the
prefix), then a non-empty run of hex digits in which single underscores may
stand between two digits (never leading, trailing or doubled). -/

/-- Digit run after the first digit: `('_'? digit)*`, accumulating the value. -/
def hexCoreAux : List Char → ℕ → Option ℕ
  | [], acc => some acc
  | c :: rest, acc =>
    if c = '_' then
      match rest with
      | c2 :: rest2 =>
        if isHexDigitPy c2 then hexCoreAux rest2 (acc * 16 + hexVal c2) else none
      | [] => none
    else if isHexDigitPy c then hexCoreAux rest (acc * 16 + hexVal c) else none

/-- Non-empty digit run `digit ('_'? digit)*`. -/
def hexCore : List Char → Option ℕ
  | [] => none
  | c :: rest => if isHexDigitPy c then hexCoreAux rest (hexVal c) else none

/-- Body after the optional sign: optional `0x`/`0X` prefix, then digits. -/
def pyIntHexBody (l : List Char) : Option ℕ :=
  match l with
  | c0 :: c1 :: rest =>
    if c0 = '0' ∧ (c1 = 'x' ∨ c1 = 'X') then
      match rest with
      | '_' :: r2 => hexCore r2
      | _ => hexCore rest
    else hexCore l
  | _ => hexCore l

/-- Python `int(s, 16)`, returning `none` where CPython raises `ValueError`. -/
def pyIntBase16 (s : List Char) : Option ℤ :=
  match pyStrip s with
  | [] => none
  | c :: rest =>
    if c = '+' then
      match pyIntHexBody rest with
      | some n => some (n : ℤ)
      | none => none
    else if c = '-' then
      match pyIntHexBody rest with
      | some n => some (-(n : ℤ))
      | none => none
    else
      match pyIntHexBody (c :: rest) with
      | some n => some (n : ℤ)
      | none => none

/-! ## The color model (`color_utils.py`) -/

/-- An RGB triple as produced by `parse_color`.  Channels are Python `int`s;
nothing in the source clamps them, so they are modelled as `ℤ`. -/
abbrev RGB := ℤ × ℤ × ℤ

/-- Table `CSS_NAMED_COLORS` from `color_utils.py`. -/
def CSS_NAMED_COLORS : List (List Char × List Char) :=
  [("white".toList, "#ffffff".toList),
   ("black".toList, "#000000".toList),
   ("red".toList, "#ff0000".toList),
   ("green".toList, "#008000".toList),
   ("blue".toList, "#0000ff".toList),
   ("yellow".toList, "#ffff00".toList),
   ("cyan".toList, "#00ffff".toList),
   ("magenta".toList, "#ff00ff".toList),
   ("gray".toList, "#808080".toList),
   ("grey".toList, "#808080".toList),
   ("silver".toList, "#c0c0c0".toList),
   ("maroon".toList, "#800000".toList),
   ("olive".toList, "#808000".toList),
   ("lime".toList, "#00ff00".toList),
   ("aqua".toList, "#00ffff".toList),
   ("teal".toList, "#008080".toList),
   ("navy".toList, "#000080".toList),
   ("fuchsia".toList, "#ff00ff".toList),
   ("purple".toList, "#800080".toList),
   ("orange".toList, "#ffa500".toList)]

def lookupNamed (t : List Char) : Option (List Char) :=
  (CSS_NAMED_COLORS.find? (fun p => p.1 == t)).map (·.2)

/-- The 3-digit shorthand expansion step of `_parse_hex`
(`if len(hex_string) == 3: ... c * 2 for c in hex_string`). -/
def hexExpand (l : List Char) : List Char :=
  if l.length = 3 then l.flatMap (fun c => [c, c]) else l

/-- Function `_parse_hex` from `color_utils.py`: `lstrip("#")`, expand 3-digit
shorthand by duplication, require length 6, then parse the three 2-character
slices with `int(_, 16)`. -/
def _parse_hex (s : List Char) : Except String RGB :=
  let h := hexExpand (s.dropWhile (fun c => c = '#'))
  if h.length ≠ 6 then .error "Invalid hex color"
  else
    match pyIntBase16 (h.take 2), pyIntBase16 ((h.drop 2).take 2),
          pyIntBase16 (h.drop 4) with
    | some r, some g, some b => .ok (r, g, b)
    | _, _, _ => .error "Invalid hex color"

/-- Truncation toward zero, Python `int(float)`. -/
def pyTrunc (q : ℚ) : ℤ := if 0 ≤ q then ⌊q⌋ else ⌈q⌉

/-- Python `x % y` on floats (sign of the divisor), used at `(h / 60) % 2`. -/
def pyMod (a b : ℚ) : ℚ := a - b * ⌊a / b⌋

/-- One-or-more ASCII digits, value and rest (the `\d+` groups of the HSL
regular expression; the literals considered use ASCII digits). -/
def takeDigits (l : List Char) : Option (ℕ × List Char) :=
  let ds := l.takeWhile isAsciiDigit
  if ds.length = 0 then none
  else some (ds.foldl (fun acc c => acc * 10 + hexVal c) 0, l.drop ds.length)

/-- Python `re.match(r"hsl\(\s*(\d+)\s*,\s*(\d+)%\s*,\s*(\d+)%\s*\)", s)`:
anchored at the start, trailing characters permitted. -/
def hslMatch (s : List Char) : Option (ℕ × ℕ × ℕ) :=
  match s with
  | 'h' :: 's' :: 'l' :: '(' :: r0 =>
    match takeDigits (r0.dropWhile pyIsSpace) with
    | none => none
    | some (h, r1) =>
      match (r1.dropWhile pyIsSpace) with
      | ',' :: r2 =>
        match takeDigits (r2.dropWhile pyIsSpace) with
        | none => none
        | some (sat, r3) =>
          match r3 with
          | '%' :: r4 =>
            match (r4.dropWhile pyIsSpace) with
            | ',' :: r5 =>
              match takeDigits (r5.dropWhile pyIsSpace) with
              | none => none
              | some (lig, r6) =>
                match r6 with
                | '%' :: r7 =>
                  match (r7.dropWhile pyIsSpace) with
                  | ')' :: _ => some (h, sat, lig)
                  | _ => none
                | _ => none
            | _ => none
          | _ => none
      | _ => none
  | _ => none

/-- Chroma `c = (1 - abs(2*l - 1)) * s` of the HSL conversion. -/
def hslChroma (sQ lQ : ℚ) : ℚ := (1 - |2 * lQ - 1|) * sQ

/-- Intermediate `x = c * (1 - abs((h / 60) % 2 - 1))` of the HSL conversion. -/
def hslX (c : ℚ) (h : ℕ) : ℚ := c * (1 - |pyMod ((h : ℚ) / 60) 2 - 1|)

/-- Match value `m = l - c / 2` of the HSL conversion. -/
def hslM (lQ c : ℚ) : ℚ := lQ - c / 2

/-- The six-way sector selection on `h` of the HSL conversion. -/
def hslSector (h : ℕ) (c x : ℚ) : ℚ × ℚ × ℚ :=
  if h < 60 then (c, x, 0)
  else if h < 120 then (x, c, 0)
  else if h < 180 then (0, c, x)
  else if h < 240 then (0, x, c)
  else if h < 300 then (x, 0, c)
  else (c, 0, x)

/-- One output channel `int((prime + m) * 255)` of the HSL conversion. -/
def hslChannel (prime m : ℚ) : ℤ := pyTrunc ((prime + m) * 255)

/-- Function `_parse_hsl` from `color_utils.py`: match the regular expression, range
checks, then the standard sector conversion with truncation to `int`. -/
def _parse_hsl (s : List Char) : Except String RGB :=
  match hslMatch s with
  | none => .error "Invalid HSL format"
  | some (h, satN, ligN) =>
    let sQ : ℚ := (satN : ℚ) / 100
    let lQ : ℚ := (ligN : ℚ) / 100
    if ¬ (h ≤ 360) then .error "HSL hue must be 0-360"
    else if ¬ (sQ ≤ 1) then .error "HSL saturation must be 0-100%"
    else if ¬ (lQ ≤ 1) then .error "HSL lightness must be 0-100%"
    else
      let c : ℚ := hslChroma sQ lQ
      let x : ℚ := hslX c h
      let m : ℚ := hslM lQ c
      let rgb' : ℚ × ℚ × ℚ := hslSector h c x
      .ok (hslChannel rgb'.1 m, hslChannel rgb'.2.1 m, hslChannel rgb'.2.2 m)

/-- Function `parse_color` from `color_utils.py`: strip and lowercase, then dispatch
on a leading `#`, a leading `hsl`, or a named-color table lookup. -/
def parse_color (s : List Char) : Except String RGB :=
  let t := pyToLower (pyStrip s)
  if t.head? = some '#' then _parse_hex t
  else if ['h', 's', 'l'].isPrefixOf t then _parse_hsl t
  else
    match lookupNamed t with
    | some hex => _parse_hex hex
    | none => .error "Invalid color format"

/-! ## Hex formatting -/

def toHexNatAux : ℕ → ℕ → List Char
  | 0, _ => []
  | fuel + 1, n =>
    if n = 0 then []
    else toHexNatAux fuel (n / 16) ++
      [if n % 16 < 10 then Char.ofNat (48 + n % 16) else Char.ofNat (87 + n % 16)]

/-- Lowercase hexadecimal representation of a natural number. -/
def toHexNat (n : ℕ) : List Char :=
  if n = 0 then ['0'] else toHexNatAux (n + 1) n

def leftPad (c : Char) (w : ℕ) (l : List Char) : List Char :=
  List.replicate (w - l.length) c ++ l

/-- Python `f"{n:02x}"`: lowercase hex, zero-padded to width 2, the zero
padding inserted after the sign of a negative number. -/
def pyFormat02x (n : ℤ) : List Char :=
  if n < 0 then '-' :: leftPad '0' 1 (toHexNat n.natAbs)
  else leftPad '0' 2 (toHexNat n.toNat)

/-- Function `rgb_to_hex` from `color_utils.py`: `f"#{r:02x}{g:02x}{b:02x}"`. -/
def rgb_to_hex (rgb : RGB) : List Char :=
  '#' :: (pyFormat02x rgb.1 ++ pyFormat02x rgb.2.1 ++ pyFormat02x rgb.2.2)

/-! ## WCAG luminance and contrast

The floating-point arithmetic of the source is modelled over `ℝ`; the gamma
exponent 2.4 makes these values irrational, so the definitions in this
subsection are noncomputable.  The parsing stages stay computable. -/

/-- The per-channel gamma correction inside `get_relative_luminance`. -/
noncomputable def gamma_correct (c : ℝ) : ℝ :=
  if c ≤ 0.03928 then c / 12.92 else ((c + 0.055) / 1.055) ^ (2.4 : ℝ)

/-- Function `get_relative_luminance` from `color_utils.py`. -/
noncomputable def get_relative_luminance (rgb : RGB) : ℝ :=
  0.2126 * gamma_correct ((rgb.1 : ℝ) / 255) +
  0.7152 * gamma_correct ((rgb.2.1 : ℝ) / 255) +
  0.0722 * gamma_correct ((rgb.2.2 : ℝ) / 255)

/-- Function `calculate_contrast_ratio` from `color_utils.py`: parse both colors
(the first failure propagates), swap the luminances so the lighter is the
numerator, and apply the WCAG formula. -/
noncomputable def calculate_contrast_ratio (color1 color2 : List Char) :
    Except String ℝ :=
  match parse_color color1, parse_color color2 with
  | .ok rgb1, .ok rgb2 =>
    let l1 := get_relative_luminance rgb1
    let l2 := get_relative_luminance rgb2
    .ok (if l1 < l2 then (l2 + 0.05) / (l1 + 0.05) else (l1 + 0.05) / (l2 + 0.05))
  | .error e, _ => .error e
  | _, .error e => .error e

/-- The pure part of the contrast computation, on already-parsed colors. -/
noncomputable def contrastOfRGB (rgb1 rgb2 : RGB) : ℝ :=
  let l1 := get_relative_luminance rgb1
  let l2 := get_relative_luminance rgb2
  if l1 < l2 then (l2 + 0.05) / (l1 + 0.05) else (l1 + 0.05) / (l2 + 0.05)

/-- The channel range every `parse_color` result lies in (negative values
down to -15 arise from the sign-tolerant per-slice integer parse, see
`pyIntBase16_len2_bounds`). -/
def rgbBounded (x : RGB) : Prop :=
  (-15 ≤ x.1 ∧ x.1 ≤ 255) ∧ (-15 ≤ x.2.1 ∧ x.2.1 ≤ 255) ∧
  (-15 ≤ x.2.2 ∧ x.2.2 ≤ 255)

/-- Function `meets_wcag_aa` from `color_utils.py`: `ratio >= 4.5`. -/
def meets_wcag_aa (ratio : ℝ) : Prop := 4.5 ≤ ratio

/-- Function `suggest_darker` from `color_utils.py`: scale each channel by
`1 - pct/100` and truncate to `int`. -/
def suggest_darker (color : List Char) (percentage : ℚ) :
    Except String (List Char) :=
  match parse_color color with
  | .error e => .error e
  | .ok rgb =>
    let factor : ℚ := 1 - percentage / 100
    .ok (rgb_to_hex (pyTrunc ((rgb.1 : ℚ) * factor),
         pyTrunc ((rgb.2.1 : ℚ) * factor), pyTrunc ((rgb.2.2 : ℚ) * factor)))

/-- Function `suggest_lighter` from `color_utils.py`: move each channel toward 255 by
`pct/100` and truncate to `int`. -/
def suggest_lighter (color : List Char) (percentage : ℚ) :
    Except String (List Char) :=
  match parse_color color with
  | .error e => .error e
  | .ok rgb =>
    let factor : ℚ := percentage / 100
    .ok (rgb_to_hex (pyTrunc ((rgb.1 : ℚ) + (255 - (rgb.1 : ℚ)) * factor),
         pyTrunc ((rgb.2.1 : ℚ) + (255 - (rgb.2.1 : ℚ)) * factor),
         pyTrunc ((rgb.2.2 : ℚ) + (255 - (rgb.2.2 : ℚ)) * factor)))

/-- Python `range(start, stop, step)` for a positive step, with explicit
fuel `stop - start` (sufficient since each iteration advances by at least 1;
a zero step, which makes CPython raise, is outside every use below). -/
def pyRangeAux : ℕ → ℕ → ℕ → ℕ → List ℕ
  | 0, _, _, _ => []
  | fuel + 1, cur, stop, step =>
    if cur < stop then cur :: pyRangeAux fuel (cur + step) stop step else []

def pyRange (start stop step : ℕ) : List ℕ :=
  pyRangeAux (stop - start) start stop step

/-- Modelled from the spec: the constants `COLOR_ADJUSTMENT_START`,
`COLOR_ADJUSTMENT_END` and `COLOR_ADJUSTMENT_STEP` are referenced from
`color_utils.py` (`config.COLOR_ADJUSTMENT_*`) but are not defined anywhere
under `src/`; the spec constrains the configured range: "it must start above
0 and proceed in fixed-size steps to a ceiling below 100".  They are taken
as explicit parameters subject to those constraints. -/
def adjustmentRange (astart astop astep : ℕ) : List ℕ :=
  pyRange astart astop astep

/-- The percentage loop inside `suggest_accessible_color`: try each
percentage in order with the given adjuster, returning the first adjusted
color whose contrast against the background reaches the target. -/
noncomputable def adjustLoop
    (adjust : List Char → ℚ → Except String (List Char))
    (background : List Char) (target : ℝ) (foreground : List Char) :
    List ℕ → Except String (Option (List Char))
  | [] => .ok none
  | p :: ps =>
    match adjust foreground (p : ℚ) with
    | .error e => .error e
    | .ok adjusted =>
      match calculate_contrast_ratio adjusted background with
      | .error e => .error e
      | .ok r =>
        if target ≤ r then .ok (some adjusted)
        else adjustLoop adjust background target foreground ps

/-- Function `suggest_accessible_color` from `color_utils.py`, with the
spec-modelled adjustment range passed as `astart astop astep`
(see `adjustmentRange`). -/
noncomputable def suggest_accessible_color (astart astop astep : ℕ)
    (foreground background : List Char) (target_ratio : ℝ) :
    Except String (List Char) :=
  match calculate_contrast_ratio foreground background with
  | .error e => .error e
  | .ok current_ratio =>
    if target_ratio ≤ current_ratio then
      match parse_color foreground with
      | .error e => .error e
      | .ok rgb => .ok (rgb_to_hex rgb)
    else
      match parse_color background with
      | .error e => .error e
      | .ok bgRgb =>
        if 0.5 < get_relative_luminance bgRgb then
          match adjustLoop suggest_darker background target_ratio foreground
              (adjustmentRange astart astop astep) with
          | .error e => .error e
          | .ok (some adjusted) => .ok adjusted
          | .ok none => .ok "#000000".toList
        else
          match adjustLoop suggest_lighter background target_ratio foreground
              (adjustmentRange astart astop astep) with
          | .error e => .error e
          | .ok (some adjusted) => .ok adjusted
          | .ok none => .ok "#ffffff".toList

/-! ## Theme validation (`theme_builder.py`) -/

/-- Python `str.isalnum()` for characters below `0x100` (every literal in the
claims lies in this range).  Beyond ASCII, the alphanumeric Latin-1 code
points are `ª µ º` (letters), `² ³ ¹ ¼ ½ ¾` (numerics) and the letter blocks
`À`-`ö`, `ø`-`ÿ` (excluding `×` and `÷`). -/
def pyIsAlnum (c : Char) : Bool :=
  let n := c.toNat
  (48 ≤ n && n ≤ 57) || (65 ≤ n && n ≤ 90) || (97 ≤ n && n ≤ 122) ||
  n = 0xaa || n = 0xb5 || n = 0xba ||
  n = 0xb2 || n = 0xb3 || n = 0xb9 || n = 0xbc || n = 0xbd || n = 0xbe ||
  (0xc0 ≤ n && n ≤ 0xff && n ≠ 0xd7 && n ≠ 0xf7)

/-- Function `validate_theme_name` from `theme_builder.py`.  The result of the
external `list_available_themes()` call is passed in as `existing`. -/
def validate_theme_name (existing : List (List Char)) (name : List Char) :
    Except String Unit :=
  if name.isEmpty then .error "Theme name cannot be empty"
  else if ¬ (name.all fun c => pyIsAlnum c || c = '-' || c = '_') then
    .error "Theme name can only contain letters, numbers, hyphens, and underscores"
  else if name ∈ existing then .error "Theme already exists"
  else .ok ()

/-! ## Python `float(str)` with NaN and infinity

`validate_font_size` parses its input with Python's `float()`, which accepts
`nan`, `inf` and `infinity` (case-insensitively, with an optional sign) in
addition to decimal literals.  NaN compares false under every ordering
comparison.  (Underscore digit separators and overflow-to-infinity of huge
literals are not modelled; no claim depends on them.) -/

inductive PyFloat where
  | finite (q : ℚ)
  | nan
  | inf
  | ninf
deriving DecidableEq

/-- Python `<=` on floats: false whenever either side is NaN. -/
def PyFloat.lep : PyFloat → PyFloat → Bool
  | .nan, _ => false
  | _, .nan => false
  | .ninf, _ => true
  | _, .ninf => false
  | .finite a, .finite b => a ≤ b
  | _, .inf => true
  | .inf, _ => false

/-- Python `<` on floats: false whenever either side is NaN. -/
def PyFloat.ltp : PyFloat → PyFloat → Bool
  | .nan, _ => false
  | _, .nan => false
  | .ninf, .ninf => false
  | .ninf, _ => true
  | _, .ninf => false
  | .finite a, .finite b => a < b
  | .finite _, .inf => true
  | .inf, _ => false

def PyFloat.neg : PyFloat → PyFloat
  | .finite q => .finite (-q)
  | .nan => .nan
  | .inf => .ninf
  | .ninf => .inf

def digitsVal (l : List Char) : ℕ :=
  l.foldl (fun a c => a * 10 + hexVal c) 0

/-- Decimal mantissa `digits [. digits?] | . digits`, returning the value and
the unconsumed rest. -/
def decMantissa (l : List Char) : Option (ℚ × List Char) :=
  let ip := l.takeWhile isAsciiDigit
  let r1 := l.drop ip.length
  match r1 with
  | '.' :: r2 =>
    let fp := r2.takeWhile isAsciiDigit
    let r3 := r2.drop fp.length
    if ip.length = 0 ∧ fp.length = 0 then none
    else some ((digitsVal ip : ℚ) + (digitsVal fp : ℚ) / ((10 : ℚ) ^ fp.length), r3)
  | _ => if ip.length = 0 then none else some ((digitsVal ip : ℚ), r1)

/-- Exponent-free tail check plus optional `(e|E)[sign]digits`. -/
def pyFloatNumeric (l : List Char) : Option ℚ :=
  match decMantissa l with
  | none => none
  | some (m, r) =>
    match r with
    | [] => some m
    | 'e' :: r2 =>
      match r2 with
      | '+' :: r3 =>
        if r3.length ≠ 0 ∧ r3.all isAsciiDigit then
          some (m * (10 : ℚ) ^ (digitsVal r3 : ℤ)) else none
      | '-' :: r3 =>
        if r3.length ≠ 0 ∧ r3.all isAsciiDigit then
          some (m * (10 : ℚ) ^ (-(digitsVal r3 : ℤ))) else none
      | _ =>
        if r2.length ≠ 0 ∧ r2.all isAsciiDigit then
          some (m * (10 : ℚ) ^ (digitsVal r2 : ℤ)) else none
    | _ => none

/-- The unsigned alternatives of `float(str)` (input already lowercased). -/
def pyFloatPos (r : List Char) : Option PyFloat :=
  if r = "nan".toList then some .nan
  else if r = "inf".toList ∨ r = "infinity".toList then some .inf
  else (pyFloatNumeric r).map PyFloat.finite

/-- Python `float(str)`: strip, optional sign, then a named non-finite form
or a decimal literal.  (`float()` is case-insensitive for the named forms and
`e`; lowercasing first is the identity on digits and punctuation.) -/
def pyFloatOfString (s : List Char) : Option PyFloat :=
  match pyToLower (pyStrip s) with
  | '+' :: r => pyFloatPos r
  | '-' :: r => (pyFloatPos r).map PyFloat.neg
  | r => pyFloatPos r

/-- Function `validate_font_size` from `theme_builder.py`: strip, drop a trailing
`pt`, parse with `float()`; reject non-numeric input, values `<= 0` and
values `> 100`.  The in-range raises at lines 118 and 120 are themselves
caught by the surrounding `except ValueError`, so every failure surfaces as
the one generic message. -/
def validate_font_size (size : List Char) : Except String Unit :=
  let s1 := pyStrip size
  let s2 := if "pt".toList.isSuffixOf s1 then s1.take (s1.length - 2) else s1
  match pyFloatOfString s2 with
  | none => .error "Invalid font size"
  | some v =>
    if v.lep (.finite 0) then .error "Invalid font size"
    else if (PyFloat.finite 100).ltp v then .error "Invalid font size"
    else .ok ()

/-! ## Wizard decision points (`theme_builder.py`) -/

open Classical in
/-- Function `check_contrast_and_warn` from `theme_builder.py`: if the contrast meets
WCAG AA the function returns `True` without consulting the operator;
otherwise the operator's response is stripped and lowercased and the function
returns `True` exactly when it equals `"y"`.  The would-be console response
is passed in as `response`. -/
noncomputable def check_contrast_and_warn
    (foreground background response : List Char) : Except String Bool :=
  match calculate_contrast_ratio foreground background with
  | .error e => .error e
  | .ok ratio =>
    if meets_wcag_aa ratio then .ok true
    else .ok (pyToLower (pyStrip response) = ['y'])

/-- Outcome of one pass of a contrast-checked field loop in
`prompt_theme_properties`. -/
inductive FieldStep where
  | advance
  | retry
deriving DecidableEq

/-- One pass of the text-color `while True` loop of
`prompt_theme_properties` (`theme_builder.py:196-211`): the accepted literal
is normalized to 6-digit hex, then the loop `break`s (the wizard advances to
the next field) exactly when `check_contrast_and_warn` returns `True`;
otherwise control returns to the top of the loop and the same field is
prompted again. -/
noncomputable def text_color_step
    (background_color raw_text response : List Char) :
    Except String FieldStep :=
  match parse_color raw_text with
  | .error e => .error e
  | .ok rgb =>
    match check_contrast_and_warn (rgb_to_hex rgb) background_color response with
    | .error e => .error e
    | .ok true => .ok .advance
    | .ok false => .ok .retry

/-- The final confirmation decision of `run_theme_wizard`
(`theme_builder.py:599-601`): after `response = input(...).strip().lower()`,
the run is cancelled when `response and response != "y"`; otherwise the theme
is generated and saved.  Returns `true` when the theme file is written. -/
def run_wizard_confirms (response : List Char) : Bool :=
  let r := pyToLower (pyStrip response)
  if r ≠ [] ∧ r ≠ ['y'] then false else true

/-! ## The CSS generator (`theme_builder.py`)

The fixed f-string template of `generate_css_from_properties`, lines 328-523
of `theme_builder.py`, transcribed segment by segment around its
interpolation points.  Braces and apostrophes inside string literals are
written with `\x7b`, `\x7d` and `\x27` escapes. -/

/-- The complete theme property set collected by the wizard (all values are
already-validated strings). -/
structure ThemeProps where
  name : List Char
  background_color : List Char
  text_color : List Char
  font_family : List Char
  body_text_size : List Char
  h1_color : List Char
  h2_h6_color : List Char
  accent_color : List Char
  code_bg_color : List Char
  table_header_bg : List Char

/-- The constant `.page-break` rule that ends the template. -/
def pageBreakRule : List Char :=
  ".page-break \x7b\n    page-break-after: always;\n    break-after: page;\n    height: 0;\n    margin: 2cm 0;\n    padding: 0;\n    border: none;\n\x7d\n".toList

/-- The interpolated CSS template (`css_template` in the source), given the
three derived colors. -/
def cssTemplate (p : ThemeProps)
    (hover_color table_alt_row code_border : List Char) : List Char :=
  "/* Theme: ".toList ++ p.name ++
  " */\n/* Generated by md2pdf Interactive Theme Builder */\n\n@page \x7b\n    size: A4;\n    margin: 0;\n\x7d\n\nbody \x7b\n    font-family: \x27".toList ++
  p.font_family ++
  "\x27;\n    font-size: ".toList ++ p.body_text_size ++
  ";\n    line-height: 1.6;\n    color: ".toList ++ p.text_color ++
  ";\n    background-color: ".toList ++ p.background_color ++
  ";\n    padding: 2cm;\n\x7d\n\nh1,\nh2,\nh3,\nh4,\nh5,\nh6 \x7b\n    margin-top: 1.5em;\n    margin-bottom: 0.5em;\n    page-break-after: avoid;\n\x7d\n\nh1 \x7b\n    font-size: 32pt;\n    color: ".toList ++
  p.h1_color ++
  ";\n    background: ".toList ++ p.code_bg_color ++
  ";\n    padding: 20px;\n    border-radius: 10px;\n    text-align: center;\n    font-weight: 700;\n    border-left: 5px solid ".toList ++
  p.accent_color ++
  ";\n\x7d\n\n#document-section-header \x7b\n    font-size: 28pt;\n    color: ".toList ++
  p.h1_color ++
  ";\n    padding: 20px;\n    text-align: right;\n    font-weight: 600;\n\x7d\n\nh2 \x7b\n    font-size: 24pt;\n    color: ".toList ++
  p.h2_h6_color ++
  ";\n    background: ".toList ++ p.code_bg_color ++
  ";\n    padding: 15px;\n    border-radius: 8px;\n    border-left: 4px solid ".toList ++
  p.accent_color ++
  ";\n\x7d\n\nh3 \x7b\n    font-size: 18pt;\n    color: ".toList ++
  p.h2_h6_color ++
  ";\n    background: ".toList ++ p.code_bg_color ++
  ";\n    padding: 10px;\n    border-radius: 5px;\n    font-weight: 600;\n\x7d\n\nh4 \x7b\n    font-size: 16pt;\n    color: ".toList ++
  p.h2_h6_color ++
  ";\n    font-weight: 600;\n\x7d\n\nh5 \x7b\n    font-size: 14pt;\n    color: ".toList ++
  p.h2_h6_color ++
  ";\n    font-weight: 600;\n\x7d\n\nh6 \x7b\n    font-size: 12pt;\n    color: ".toList ++
  p.h2_h6_color ++
  ";\n    font-weight: 600;\n\x7d\n\np \x7b\n    margin: 10px 0;\n    font-size: ".toList ++
  p.body_text_size ++
  ";\n\x7d\n\nul,\nol \x7b\n    padding: 0 0 0 2em;\n    margin: 10px 0;\n    font-size: ".toList ++
  p.body_text_size ++
  ";\n    line-height: 1.6;\n\x7d\n\nli \x7b\n    margin: 5px 0;\n\x7d\n\ntable \x7b\n    border-collapse: collapse;\n    width: 100%;\n    margin: 20px 0;\n    font-size: 10pt;\n    border-radius: 8px;\n    overflow: hidden;\n\x7d\n\nth \x7b\n    background: ".toList ++
  p.table_header_bg ++
  ";\n    color: white;\n    padding: 14px;\n    text-align: left;\n    font-weight: 600;\n\x7d\n\ntd \x7b\n    padding: 12px;\n    border: 1px solid ".toList ++
  code_border ++
  ";\n\x7d\n\ntr:nth-child(even) td \x7b\n    background-color: ".toList ++
  table_alt_row ++
  ";\n\x7d\n\ncode \x7b\n    background: ".toList ++ p.code_bg_color ++
  ";\n    padding: 4px 8px;\n    border-radius: 3px;\n    font-family: \x27Courier New\x27, monospace;\n    font-size: 10pt;\n    border: 1px solid ".toList ++
  code_border ++
  ";\n\x7d\n\npre \x7b\n    background: ".toList ++ p.code_bg_color ++
  ";\n    border: 1px solid ".toList ++ code_border ++
  ";\n    border-left: 5px solid ".toList ++ p.accent_color ++
  ";\n    border-radius: 5px;\n    padding: 18px;\n    overflow-x: auto;\n    margin: 15px 0;\n    font-size: 10pt;\n\x7d\n\npre code \x7b\n    background: none;\n    padding: 0;\n    border: none;\n\x7d\n\nblockquote \x7b\n    border-left: 5px solid ".toList ++
  p.accent_color ++
  ";\n    padding-left: 2em;\n    margin: 15px 0;\n    font-style: italic;\n    background: ".toList ++
  p.code_bg_color ++
  ";\n    padding: 18px 18px 18px 2em;\n    border-radius: 5px;\n\x7d\n\na \x7b\n    color: ".toList ++
  p.accent_color ++
  ";\n    text-decoration: none;\n    font-weight: 500;\n\x7d\n\na:hover \x7b\n    color: ".toList ++
  hover_color ++
  ";\n    text-decoration: underline;\n\x7d\n\nhr \x7b\n    border: none;\n    height: 2px;\n    background: ".toList ++
  p.accent_color ++
  ";\n    margin: 25px 0;\n\x7d\n\nimg \x7b\n    max-width: 100%;\n    height: auto;\n    border-radius: 8px;\n    border: 2px solid ".toList ++
  code_border ++
  ";\n\x7d\n\n".toList ++ pageBreakRule

/-- Function `generate_css_from_properties` from `theme_builder.py`: derive
the three secondary colors (hover = accent darkened 15%, alternating table
row = background lightened 5%, border = code background darkened 10%) and
interpolate the fixed template. -/
def generate_css_from_properties (p : ThemeProps) : Except String (List Char) :=
  match suggest_darker p.accent_color 15 with
  | .error e => .error e
  | .ok hover_color =>
    match suggest_lighter p.background_color 5 with
    | .error e => .error e
    | .ok table_alt_row =>
      match suggest_darker p.code_bg_color 10 with
      | .error e => .error e
      | .ok code_border => .ok (cssTemplate p hover_color table_alt_row code_border)

/-- The concrete property set of the end-to-end scenario: background
`#ffffff`, text `#000000`, accent `#0000ff`, remaining fields at the wizard
defaults. -/
def testProps : ThemeProps where
  name := "test".toList
  background_color := "#ffffff".toList
  text_color := "#000000".toList
  font_family := "Arial, sans-serif".toList
  body_text_size := "11pt".toList
  h1_color := "#2c3e50".toList
  h2_h6_color := "#2c3e50".toList
  accent_color := "#0000ff".toList
  code_bg_color := "#f5f5f5".toList
  table_header_bg := "#667eea".toList

/-- The CSS generated for `testProps`: the derived colors evaluate to
`#0000d8` (accent darkened 15%), `#ffffff` (background lightened 5%) and
`#dcdcdc` (code background darkened 10%); see `generate_testCss`. -/
def testCss : List Char :=
  cssTemplate testProps "#0000d8".toList "#ffffff".toList "#dcdcdc".toList

/-- Whether `pat` occurs as a contiguous substring of `l`. -/
def listContains (pat l : List Char) : Bool :=
  (List.range (l.length + 1)).any (fun i => pat.isPrefixOf (l.drop i))

/-- Number of positions at which `pat` occurs in `l`. -/
def countOccur (pat l : List Char) : ℕ :=
  (List.range (l.length + 1)).countP (fun i => pat.isPrefixOf (l.drop i))

/-- Right-nested concatenation of a list of string segments. -/
def joinList (segs : List (List Char)) : List Char := segs.foldr (· ++ ·) []

/-- Absence check for `pat` over a segmented string: `pat` occurs in no
segment and in no boundary window (the last `|pat| - 1` characters of a
segment followed by the first `|pat| - 1` characters of what follows it). -/
def noCrossCheck (pat : List Char) : List (List Char) → Bool
  | [] => true
  | s :: rest =>
    !listContains pat s &&
    !listContains pat
      (s.drop (s.length - (pat.length - 1)) ++
        (joinList rest).take (pat.length - 1)) &&
    noCrossCheck pat rest

/-- The CSS of the end-to-end scenario, as the ordered list of template
segments (constants interleaved with the interpolated property values and
derived colors); `testCss_eq_join` ties it to `testCss`. -/
def testCssSegs : List (List Char) :=
  ["/* Theme: ".toList,
   "test".toList,
   " */\n/* Generated by md2pdf Interactive Theme Builder */\n\n@page \x7b\n    size: A4;\n    margin: 0;\n\x7d\n\nbody \x7b\n    font-family: \x27".toList,
   "Arial, sans-serif".toList,
   "\x27;\n    font-size: ".toList,
   "11pt".toList,
   ";\n    line-height: 1.6;\n    color: ".toList,
   "#000000".toList,
   ";\n    background-color: ".toList,
   "#ffffff".toList,
   ";\n    padding: 2cm;\n\x7d\n\nh1,\nh2,\nh3,\nh4,\nh5,\nh6 \x7b\n    margin-top: 1.5em;\n    margin-bottom: 0.5em;\n    page-break-after: avoid;\n\x7d\n\nh1 \x7b\n    font-size: 32pt;\n    color: ".toList,
   "#2c3e50".toList,
   ";\n    background: ".toList,
   "#f5f5f5".toList,
   ";\n    padding: 20px;\n    border-radius: 10px;\n    text-align: center;\n    font-weight: 700;\n    border-left: 5px solid ".toList,
   "#0000ff".toList,
   ";\n\x7d\n\n#document-section-header \x7b\n    font-size: 28pt;\n    color: ".toList,
   "#2c3e50".toList,
   ";\n    padding: 20px;\n    text-align: right;\n    font-weight: 600;\n\x7d\n\nh2 \x7b\n    font-size: 24pt;\n    color: ".toList,
   "#2c3e50".toList,
   ";\n    background: ".toList,
   "#f5f5f5".toList,
   ";\n    padding: 15px;\n    border-radius: 8px;\n    border-left: 4px solid ".toList,
   "#0000ff".toList,
   ";\n\x7d\n\nh3 \x7b\n    font-size: 18pt;\n    color: ".toList,
   "#2c3e50".toList,
   ";\n    background: ".toList,
   "#f5f5f5".toList,
   ";\n    padding: 10px;\n    border-radius: 5px;\n    font-weight: 600;\n\x7d\n\nh4 \x7b\n    font-size: 16pt;\n    color: ".toList,
   "#2c3e50".toList,
   ";\n    font-weight: 600;\n\x7d\n\nh5 \x7b\n    font-size: 14pt;\n    color: ".toList,
   "#2c3e50".toList,
   ";\n    font-weight: 600;\n\x7d\n\nh6 \x7b\n    font-size: 12pt;\n    color: ".toList,
   "#2c3e50".toList,
   ";\n    font-weight: 600;\n\x7d\n\np \x7b\n    margin: 10px 0;\n    font-size: ".toList,
   "11pt".toList,
   ";\n\x7d\n\nul,\nol \x7b\n    padding: 0 0 0 2em;\n    margin: 10px 0;\n    font-size: ".toList,
   "11pt".toList,
   ";\n    line-height: 1.6;\n\x7d\n\nli \x7b\n    margin: 5px 0;\n\x7d\n\ntable \x7b\n    border-collapse: collapse;\n    width: 100%;\n    margin: 20px 0;\n    font-size: 10pt;\n    border-radius: 8px;\n    overflow: hidden;\n\x7d\n\nth \x7b\n    background: ".toList,
   "#667eea".toList,
   ";\n    color: white;\n    padding: 14px;\n    text-align: left;\n    font-weight: 600;\n\x7d\n\ntd \x7b\n    padding: 12px;\n    border: 1px solid ".toList,
   "#dcdcdc".toList,
   ";\n\x7d\n\ntr:nth-child(even) td \x7b\n    background-color: ".toList,
   "#ffffff".toList,
   ";\n\x7d\n\ncode \x7b\n    background: ".toList,
   "#f5f5f5".toList,
   ";\n    padding: 4px 8px;\n    border-radius: 3px;\n    font-family: \x27Courier New\x27, monospace;\n    font-size: 10pt;\n    border: 1px solid ".toList,
   "#dcdcdc".toList,
   ";\n\x7d\n\npre \x7b\n    background: ".toList,
   "#f5f5f5".toList,
   ";\n    border: 1px solid ".toList,
   "#dcdcdc".toList,
   ";\n    border-left: 5px solid ".toList,
   "#0000ff".toList,
   ";\n    border-radius: 5px;\n    padding: 18px;\n    overflow-x: auto;\n    margin: 15px 0;\n    font-size: 10pt;\n\x7d\n\npre code \x7b\n    background: none;\n    padding: 0;\n    border: none;\n\x7d\n\nblockquote \x7b\n    border-left: 5px solid ".toList,
   "#0000ff".toList,
   ";\n    padding-left: 2em;\n    margin: 15px 0;\n    font-style: italic;\n    background: ".toList,
   "#f5f5f5".toList,
   ";\n    padding: 18px 18px 18px 2em;\n    border-radius: 5px;\n\x7d\n\na \x7b\n    color: ".toList,
   "#0000ff".toList,
   ";\n    text-decoration: none;\n    font-weight: 500;\n\x7d\n\na:hover \x7b\n    color: ".toList,
   "#0000d8".toList,
   ";\n    text-decoration: underline;\n\x7d\n\nhr \x7b\n    border: none;\n    height: 2px;\n    background: ".toList,
   "#0000ff".toList,
   ";\n    margin: 25px 0;\n\x7d\n\nimg \x7b\n    max-width: 100%;\n    height: auto;\n    border-radius: 8px;\n    border: 2px solid ".toList,
   "#dcdcdc".toList,
   ";\n\x7d\n\n".toList,
   pageBreakRule]

/-! ## Helper lemmas -/

lemma isLowerHexDigit_ranges {c : Char} (h : isLowerHexDigit c = true) :
    (48 ≤ c.toNat ∧ c.toNat ≤ 57) ∨ (97 ≤ c.toNat ∧ c.toNat ≤ 102) := by
  simp only [isLowerHexDigit, isAsciiDigit, Bool.or_eq_true, Bool.and_eq_true,
    decide_eq_true_eq] at h
  omega

lemma pyIsSpace_of_lowerHex {c : Char} (h : isLowerHexDigit c = true) :
    pyIsSpace c = false := by
  rcases isLowerHexDigit_ranges h with h1 | h1 <;>
  · simp only [pyIsSpace, Bool.or_eq_false_iff, decide_eq_false_iff_not]
    omega

lemma isHexDigitPy_of_lowerHex {c : Char} (h : isLowerHexDigit c = true) :
    isHexDigitPy c = true := by
  simp only [isLowerHexDigit, Bool.or_eq_true] at h
  simp only [isHexDigitPy, Bool.or_eq_true]
  tauto

lemma hexVal_le_15 (c : Char) : hexVal c ≤ 15 := by
  unfold hexVal isAsciiDigit
  split
  · next h =>
    simp only [Bool.and_eq_true, decide_eq_true_eq] at h
    omega
  · split
    · next h =>
      simp only [Bool.and_eq_true, decide_eq_true_eq] at h
      omega
    · split
      · next h =>
        simp only [Bool.and_eq_true, decide_eq_true_eq] at h
        omega
      · omega

lemma toNat_eq_of_eq {c d : Char} (h : c = d) : c.toNat = d.toNat := by rw [h]

lemma pyLowerChar_of_lowerHex {c : Char} (h : isLowerHexDigit c = true) :
    pyLowerChar c = c := by
  rcases isLowerHexDigit_ranges h with h1 | h1 <;>
  · unfold pyLowerChar
    rw [if_neg]
    omega

lemma ne_of_toNat_ne {c d : Char} (h : c.toNat ≠ d.toNat) : c ≠ d :=
  fun he => h (toNat_eq_of_eq he)

lemma dropWhile_eq_self_of_none {p : Char → Bool} {l : List Char}
    (h : ∀ c ∈ l, p c = false) : l.dropWhile p = l := by
  cases l with
  | nil => rfl
  | cons a t => simp [List.dropWhile, h a (List.mem_cons_self a t)]

lemma pyStrip_eq_self {l : List Char} (h : ∀ c ∈ l, pyIsSpace c = false) :
    pyStrip l = l := by
  unfold pyStrip
  rw [dropWhile_eq_self_of_none h,
      dropWhile_eq_self_of_none (fun c hc => h c (List.mem_reverse.mp hc)),
      List.reverse_reverse]

lemma pyToLower_eq_self {l : List Char} (h : ∀ c ∈ l, pyLowerChar c = c) :
    pyToLower l = l := by
  unfold pyToLower
  induction l with
  | nil => rfl
  | cons a t ih =>
    simp only [List.map_cons, h a (List.mem_cons_self a t), List.cons.injEq, true_and]
    exact ih (fun c hc => h c (List.mem_cons_of_mem a hc))

lemma length_dropWhile_le (p : Char → Bool) (l : List Char) :
    (l.dropWhile p).length ≤ l.length := by
  induction l with
  | nil => simp [List.dropWhile]
  | cons a t ih =>
    simp only [List.dropWhile]
    split
    · simpa using Nat.le_succ_of_le ih
    · simp

lemma pyStrip_length_le (l : List Char) : (pyStrip l).length ≤ l.length := by
  unfold pyStrip
  calc ((l.dropWhile pyIsSpace).reverse.dropWhile pyIsSpace).reverse.length
      = ((l.dropWhile pyIsSpace).reverse.dropWhile pyIsSpace).length := by
        rw [List.length_reverse]
    _ ≤ (l.dropWhile pyIsSpace).reverse.length := length_dropWhile_le _ _
    _ = (l.dropWhile pyIsSpace).length := by rw [List.length_reverse]
    _ ≤ l.length := length_dropWhile_le _ _

lemma pyIntHexBody_nil : pyIntHexBody [] = none := rfl

lemma pyIntHexBody_len1 {c : Char} {n : ℕ} (h : pyIntHexBody [c] = some n) :
    n ≤ 15 := by
  simp only [pyIntHexBody, hexCore] at h
  split at h
  · next heq =>
    simp only [hexCoreAux, Option.some.injEq] at h
    subst h
    exact hexVal_le_15 c
  · exact absurd h (by simp)

lemma pyIntHexBody_len2 {c d : Char} {n : ℕ} (h : pyIntHexBody [c, d] = some n) :
    n ≤ 255 := by
  simp only [pyIntHexBody] at h
  split at h
  · next heq => simp [hexCore] at h
  · next heq =>
    simp only [hexCore] at h
    split at h
    · next hc =>
      simp only [hexCoreAux] at h
      split at h
      · next hd => simp at h
      · split at h
        · next hd =>
          simp only [hexCoreAux, Option.some.injEq] at h
          subst h
          have h1 := hexVal_le_15 c
          have h2 := hexVal_le_15 d
          omega
        · exact absurd h (by simp)
    · exact absurd h (by simp)

lemma pyIntBase16_len2_bounds {s : List Char} (hlen : s.length = 2) {z : ℤ}
    (h : pyIntBase16 s = some z) : -15 ≤ z ∧ z ≤ 255 := by
  have hstrip : (pyStrip s).length ≤ 2 := hlen ▸ pyStrip_length_le s
  rcases hts : pyStrip s with _ | ⟨c, _ | ⟨d, _ | ⟨e, rest⟩⟩⟩
  · simp [pyIntBase16, hts] at h
  · simp only [pyIntBase16, hts] at h
    split at h
    · simp [pyIntHexBody_nil] at h
    · split at h
      · simp [pyIntHexBody_nil] at h
      · rcases hb : pyIntHexBody [c] with _ | n
        · rw [hb] at h
          simp at h
        · rw [hb] at h
          simp only [Option.some.injEq] at h
          have := pyIntHexBody_len1 hb
          omega
  · simp only [pyIntBase16, hts] at h
    split at h
    · rcases hb : pyIntHexBody [d] with _ | n
      · rw [hb] at h
        simp at h
      · rw [hb] at h
        simp only [Option.some.injEq] at h
        have := pyIntHexBody_len1 hb
        omega
    · split at h
      · rcases hb : pyIntHexBody [d] with _ | n
        · rw [hb] at h
          simp at h
        · rw [hb] at h
          simp only [Option.some.injEq] at h
          have := pyIntHexBody_len1 hb
          omega
      · rcases hb : pyIntHexBody [c, d] with _ | n
        · rw [hb] at h
          simp at h
        · rw [hb] at h
          simp only [Option.some.injEq] at h
          have := pyIntHexBody_len2 hb
          omega
  · rw [hts] at hstrip
    simp at hstrip

lemma pyIntBase16_two_hex {a b : Char} (ha : isLowerHexDigit a = true)
    (hb : isLowerHexDigit b = true) :
    pyIntBase16 [a, b] = some ((hexVal a * 16 + hexVal b : ℕ) : ℤ) := by
  have hsp : ∀ c ∈ [a, b], pyIsSpace c = false := by
    intro c hc
    rcases List.mem_cons.mp hc with h1 | h1
    · exact h1 ▸ pyIsSpace_of_lowerHex ha
    · rcases List.mem_cons.mp h1 with h2 | h2
      · exact h2 ▸ pyIsSpace_of_lowerHex hb
      · simp at h2
  have hap : a ≠ '+' := fun he => absurd (he ▸ ha) (by decide)
  have ham : a ≠ '-' := fun he => absurd (he ▸ ha) (by decide)
  have hbx : b ≠ 'x' := fun he => absurd (he ▸ hb) (by decide)
  have hbX : b ≠ 'X' := fun he => absurd (he ▸ hb) (by decide)
  have hbu : b ≠ '_' := fun he => absurd (he ▸ hb) (by decide)
  have hbody : pyIntHexBody [a, b] = some (hexVal a * 16 + hexVal b) := by
    simp only [pyIntHexBody]
    rw [if_neg (by rintro ⟨h0, hx | hx⟩; exacts [hbx hx, hbX hx])]
    simp only [hexCore, isHexDigitPy_of_lowerHex ha, if_true]
    simp only [hexCoreAux, if_neg hbu, isHexDigitPy_of_lowerHex hb, if_true]
  simp only [pyIntBase16, pyStrip_eq_self hsp]
  rw [if_neg hap, if_neg ham, hbody]

set_option maxRecDepth 4000 in
/-- Facts about the 2-character formatting of the channel values reachable
from `parse_color`: `f"{n:02x}"` round-trips through `int(_, 16)`, has
length 2, and contains no whitespace, uppercase or `#` characters. -/
lemma format02x_facts : ∀ m ∈ List.range 271,
    pyIntBase16 (pyFormat02x ((m : ℤ) - 15)) = some ((m : ℤ) - 15) ∧
    (pyFormat02x ((m : ℤ) - 15)).length = 2 ∧
    ∀ c ∈ pyFormat02x ((m : ℤ) - 15),
      pyIsSpace c = false ∧ pyLowerChar c = c ∧ c ≠ '#' := by
  decide

lemma format02x_facts' {n : ℤ} (h1 : -15 ≤ n) (h2 : n ≤ 255) :
    pyIntBase16 (pyFormat02x n) = some n ∧ (pyFormat02x n).length = 2 ∧
    ∀ c ∈ pyFormat02x n, pyIsSpace c = false ∧ pyLowerChar c = c ∧ c ≠ '#' := by
  have hm : (((n + 15).toNat : ℤ)) - 15 = n := by omega
  have hmem : (n + 15).toNat ∈ List.range 271 := by
    rw [List.mem_range]
    omega
  have := format02x_facts (n + 15).toNat hmem
  rwa [hm] at this

lemma parse_color_rgb_to_hex {r g b : ℤ}
    (hr : -15 ≤ r ∧ r ≤ 255) (hg : -15 ≤ g ∧ g ≤ 255) (hb : -15 ≤ b ∧ b ≤ 255) :
    parse_color (rgb_to_hex (r, g, b)) = .ok (r, g, b) := by
  obtain ⟨hr1, hr2, hr3⟩ := format02x_facts' hr.1 hr.2
  obtain ⟨hg1, hg2, hg3⟩ := format02x_facts' hg.1 hg.2
  obtain ⟨hb1, hb2, hb3⟩ := format02x_facts' hb.1 hb.2
  obtain ⟨a1, a2, hra⟩ := List.length_eq_two.mp hr2
  obtain ⟨b1, b2, hgb⟩ := List.length_eq_two.mp hg2
  obtain ⟨c1, c2, hbc⟩ := List.length_eq_two.mp hb2
  rw [hra] at hr1 hr3
  rw [hgb] at hg1 hg3
  rw [hbc] at hb1 hb3
  have hshape : rgb_to_hex (r, g, b) = '#' :: [a1, a2, b1, b2, c1, c2] := by
    unfold rgb_to_hex
    rw [hra, hgb, hbc]
    rfl
  have fact1 := hr3 a1 (by simp)
  have fact2 := hr3 a2 (by simp)
  have fact3 := hg3 b1 (by simp)
  have fact4 := hg3 b2 (by simp)
  have fact5 := hb3 c1 (by simp)
  have fact6 := hb3 c2 (by simp)
  have hmem : ∀ c ∈ '#' :: [a1, a2, b1, b2, c1, c2],
      pyIsSpace c = false ∧ pyLowerChar c = c := by
    intro c hc
    simp only [List.mem_cons, List.not_mem_nil, or_false] at hc
    rcases hc with h | h | h | h | h | h | h
    · exact h ▸ ⟨by decide, by decide⟩
    · exact h ▸ ⟨fact1.1, fact1.2.1⟩
    · exact h ▸ ⟨fact2.1, fact2.2.1⟩
    · exact h ▸ ⟨fact3.1, fact3.2.1⟩
    · exact h ▸ ⟨fact4.1, fact4.2.1⟩
    · exact h ▸ ⟨fact5.1, fact5.2.1⟩
    · exact h ▸ ⟨fact6.1, fact6.2.1⟩
  have hnothash : ∀ c ∈ ([a1, a2, b1, b2, c1, c2] : List Char),
      (decide (c = '#') : Bool) = false := by
    intro c hc
    simp only [List.mem_cons, List.not_mem_nil, or_false] at hc
    rcases hc with h | h | h | h | h | h
    · simp [h ▸ fact1.2.2]
    · simp [h ▸ fact2.2.2]
    · simp [h ▸ fact3.2.2]
    · simp [h ▸ fact4.2.2]
    · simp [h ▸ fact5.2.2]
    · simp [h ▸ fact6.2.2]
  rw [hshape]
  simp only [parse_color]
  rw [pyStrip_eq_self (fun c hc => (hmem c hc).1),
      pyToLower_eq_self (fun c hc => (hmem c hc).2)]
  rw [if_pos (show (['#', a1, a2, b1, b2, c1, c2] : List Char).head? = some '#'
        from rfl)]
  simp only [_parse_hex]
  rw [List.dropWhile_cons_of_pos (by decide),
      dropWhile_eq_self_of_none hnothash]
  rw [show hexExpand [a1, a2, b1, b2, c1, c2] = [a1, a2, b1, b2, c1, c2] from by
    simp [hexExpand]]
  rw [if_neg (show ¬ (([a1, a2, b1, b2, c1, c2] : List Char).length ≠ 6) by simp)]
  have e1 : ([a1, a2, b1, b2, c1, c2] : List Char).take 2 = [a1, a2] := rfl
  have e2 : (([a1, a2, b1, b2, c1, c2] : List Char).drop 2).take 2 = [b1, b2] := rfl
  have e3 : ([a1, a2, b1, b2, c1, c2] : List Char).drop 4 = [c1, c2] := rfl
  rw [e1, e2, e3, hr1, hg1, hb1]

lemma pyMod_two_bounds (a : ℚ) : 0 ≤ pyMod a 2 ∧ pyMod a 2 ≤ 2 := by
  unfold pyMod
  have h1 : ((⌊a / 2⌋ : ℤ) : ℚ) ≤ a / 2 := Int.floor_le _
  have h2 : a / 2 < (⌊a / 2⌋ : ℚ) + 1 := Int.lt_floor_add_one _
  constructor <;> nlinarith

lemma pyTrunc_bounds {q : ℚ} (h0 : 0 ≤ q) (h1 : q ≤ 255) :
    0 ≤ pyTrunc q ∧ pyTrunc q ≤ 255 := by
  unfold pyTrunc
  rw [if_pos h0]
  constructor
  · exact Int.floor_nonneg.mpr h0
  · have : ((⌊q⌋ : ℤ) : ℚ) ≤ 255 := le_trans (Int.floor_le q) h1
    exact_mod_cast this

lemma hsl_chroma_m_facts {sQ lQ : ℚ} (hs0 : 0 ≤ sQ) (hs1 : sQ ≤ 1)
    (hl0 : 0 ≤ lQ) (hl1 : lQ ≤ 1) :
    0 ≤ hslChroma sQ lQ ∧ 0 ≤ hslM lQ (hslChroma sQ lQ) ∧
    hslM lQ (hslChroma sQ lQ) ≤ 1 ∧
    hslChroma sQ lQ + hslM lQ (hslChroma sQ lQ) ≤ 1 := by
  unfold hslChroma hslM
  have habs1 : |2 * lQ - 1| ≤ 1 := by
    rw [abs_le]
    constructor <;> linarith
  have k1 : 2 * lQ - 1 ≤ |2 * lQ - 1| := le_abs_self _
  have k2 : -|2 * lQ - 1| ≤ 2 * lQ - 1 := neg_abs_le _
  have hc0 : 0 ≤ (1 - |2 * lQ - 1|) * sQ := mul_nonneg (by linarith) hs0
  have hcA : (1 - |2 * lQ - 1|) * sQ ≤ 1 - |2 * lQ - 1| :=
    mul_le_of_le_one_right (by linarith) hs1
  refine ⟨hc0, by linarith, by linarith, by linarith⟩

lemma hsl_x_facts {sQ lQ : ℚ} (hs0 : 0 ≤ sQ) (hs1 : sQ ≤ 1)
    (hl0 : 0 ≤ lQ) (hl1 : lQ ≤ 1) (h : ℕ) :
    0 ≤ hslX (hslChroma sQ lQ) h ∧ hslX (hslChroma sQ lQ) h ≤ hslChroma sQ lQ := by
  obtain ⟨hc0, _, _, _⟩ := hsl_chroma_m_facts hs0 hs1 hl0 hl1
  unfold hslX
  obtain ⟨ht0, ht2⟩ := pyMod_two_bounds ((h : ℚ) / 60)
  have habs1 : |pyMod ((h : ℚ) / 60) 2 - 1| ≤ 1 := by
    rw [abs_le]
    constructor <;> linarith
  have habs0 : 0 ≤ |pyMod ((h : ℚ) / 60) 2 - 1| := abs_nonneg _
  exact ⟨mul_nonneg hc0 (by linarith),
    mul_le_of_le_one_right hc0 (by linarith)⟩

lemma hslChannel_bounds {prime m : ℚ} (h0 : 0 ≤ prime + m) (h1 : prime + m ≤ 1) :
    0 ≤ hslChannel prime m ∧ hslChannel prime m ≤ 255 := by
  unfold hslChannel
  exact pyTrunc_bounds (by nlinarith) (by nlinarith)

lemma hslSector_cases (h : ℕ) (c x : ℚ) :
    ((hslSector h c x).1 = c ∨ (hslSector h c x).1 = x ∨ (hslSector h c x).1 = 0) ∧
    ((hslSector h c x).2.1 = c ∨ (hslSector h c x).2.1 = x ∨ (hslSector h c x).2.1 = 0) ∧
    ((hslSector h c x).2.2 = c ∨ (hslSector h c x).2.2 = x ∨ (hslSector h c x).2.2 = 0) := by
  unfold hslSector
  split
  · simp
  · split
    · simp
    · split
      · simp
      · split
        · simp
        · split <;> simp

lemma _parse_hsl_bounds {s : List Char} {r g b : ℤ}
    (h : _parse_hsl s = .ok (r, g, b)) :
    (0 ≤ r ∧ r ≤ 255) ∧ (0 ≤ g ∧ g ≤ 255) ∧ (0 ≤ b ∧ b ≤ 255) := by
  simp only [_parse_hsl] at h
  rcases hm : hslMatch s with _ | ⟨hN, satN, ligN⟩
  · rw [hm] at h
    simp at h
  · rw [hm] at h
    dsimp only at h
    by_cases h360 : hN ≤ 360
    case neg =>
      rw [if_pos h360] at h
      simp at h
    rw [if_neg (not_not_intro h360)] at h
    by_cases hsat : (satN : ℚ) / 100 ≤ 1
    case neg =>
      rw [if_pos hsat] at h
      simp at h
    rw [if_neg (not_not_intro hsat)] at h
    by_cases hlig : (ligN : ℚ) / 100 ≤ 1
    case neg =>
      rw [if_pos hlig] at h
      simp at h
    rw [if_neg (not_not_intro hlig)] at h
    have hs0 : (0 : ℚ) ≤ (satN : ℚ) / 100 := by positivity
    have hl0 : (0 : ℚ) ≤ (ligN : ℚ) / 100 := by positivity
    obtain ⟨hc0, hm0, hm1, hcm1⟩ := hsl_chroma_m_facts hs0 hsat hl0 hlig
    obtain ⟨hx0, hxc⟩ := hsl_x_facts hs0 hsat hl0 hlig hN
    have key : ∀ comp : ℚ, comp = hslChroma ((satN : ℚ) / 100) ((ligN : ℚ) / 100) ∨
        comp = hslX (hslChroma ((satN : ℚ) / 100) ((ligN : ℚ) / 100)) hN ∨
        comp = 0 →
        0 ≤ hslChannel comp
            (hslM ((ligN : ℚ) / 100) (hslChroma ((satN : ℚ) / 100) ((ligN : ℚ) / 100))) ∧
        hslChannel comp
            (hslM ((ligN : ℚ) / 100) (hslChroma ((satN : ℚ) / 100) ((ligN : ℚ) / 100))) ≤ 255 := by
      rintro comp (hcomp | hcomp | hcomp) <;> subst hcomp
      · exact hslChannel_bounds (by linarith) (by linarith)
      · exact hslChannel_bounds (by linarith) (by linarith)
      · exact hslChannel_bounds (by linarith) (by linarith)
    simp only [Except.ok.injEq, Prod.mk.injEq] at h
    obtain ⟨hr, hg, hbb⟩ := h
    obtain ⟨hsect1, hsect2, hsect3⟩ := hslSector_cases hN
      (hslChroma ((satN : ℚ) / 100) ((ligN : ℚ) / 100))
      (hslX (hslChroma ((satN : ℚ) / 100) ((ligN : ℚ) / 100)) hN)
    exact ⟨hr ▸ key _ hsect1, hg ▸ key _ hsect2, hbb ▸ key _ hsect3⟩

lemma _parse_hex_bounds {s : List Char} {r g b : ℤ}
    (h : _parse_hex s = .ok (r, g, b)) :
    (-15 ≤ r ∧ r ≤ 255) ∧ (-15 ≤ g ∧ g ≤ 255) ∧ (-15 ≤ b ∧ b ≤ 255) := by
  simp only [_parse_hex] at h
  split at h
  · simp at h
  · next hlen =>
    have hlen6 : (hexExpand (s.dropWhile (fun c => c = '#'))).length = 6 :=
      not_not.mp hlen
    split at h
    · next r' g' b' h1 h2 h3 =>
      simp only [Except.ok.injEq, Prod.mk.injEq] at h
      obtain ⟨hr, hg, hbb⟩ := h
      subst hr hg hbb
      refine ⟨pyIntBase16_len2_bounds ?_ h1, pyIntBase16_len2_bounds ?_ h2,
        pyIntBase16_len2_bounds ?_ h3⟩
      · simp [List.length_take, hlen6]
      · simp [List.length_take, List.length_drop, hlen6]
      · simp [List.length_drop, hlen6]
    · simp at h

lemma parse_color_bounds {s : List Char} {r g b : ℤ}
    (h : parse_color s = .ok (r, g, b)) :
    (-15 ≤ r ∧ r ≤ 255) ∧ (-15 ≤ g ∧ g ≤ 255) ∧ (-15 ≤ b ∧ b ≤ 255) := by
  simp only [parse_color] at h
  split at h
  · exact _parse_hex_bounds h
  · split at h
    · have hb := _parse_hsl_bounds h
      exact ⟨⟨by omega, hb.1.2⟩, ⟨by omega, hb.2.1.2⟩, by omega, hb.2.2.2⟩
    · split at h
      · exact _parse_hex_bounds h
      · simp at h

/-! ## Luminance and contrast evaluations -/

lemma gamma_correct_one : gamma_correct 1 = 1 := by
  unfold gamma_correct
  rw [if_neg (by norm_num)]
  have h1 : ((1 : ℝ) + 0.055) / 1.055 = 1 := by norm_num
  rw [h1, Real.one_rpow]

lemma gamma_correct_zero : gamma_correct 0 = 0 := by
  unfold gamma_correct
  rw [if_pos (by norm_num)]
  norm_num

lemma lum_white : get_relative_luminance (255, 255, 255) = 1 := by
  unfold get_relative_luminance
  have h1 : (((255, 255, 255) : RGB).1 : ℝ) / 255 = 1 := by norm_num
  rw [h1, gamma_correct_one]
  norm_num

lemma lum_black : get_relative_luminance (0, 0, 0) = 0 := by
  unfold get_relative_luminance
  have h1 : (((0, 0, 0) : RGB).1 : ℝ) / 255 = 0 := by norm_num
  rw [h1, gamma_correct_zero]
  norm_num

lemma parse_white : parse_color "#ffffff".toList = .ok (255, 255, 255) := rfl

lemma parse_black : parse_color "#000000".toList = .ok (0, 0, 0) := rfl

lemma ratio_white_white :
    calculate_contrast_ratio "#ffffff".toList "#ffffff".toList = .ok 1 := by
  unfold calculate_contrast_ratio
  rw [parse_white]
  dsimp only
  rw [lum_white, if_neg (lt_irrefl 1)]
  norm_num

lemma ratio_white_black :
    calculate_contrast_ratio "#ffffff".toList "#000000".toList = .ok 21 := by
  unfold calculate_contrast_ratio
  rw [parse_white, parse_black]
  dsimp only
  rw [lum_white, lum_black, if_neg (by norm_num)]
  norm_num

lemma ratio_black_white :
    calculate_contrast_ratio "#000000".toList "#ffffff".toList = .ok 21 := by
  unfold calculate_contrast_ratio
  rw [parse_white, parse_black]
  dsimp only
  rw [lum_white, lum_black, if_pos (by norm_num)]
  norm_num

/-- Behaviour of `check_contrast_and_warn` when the contrast fails WCAG AA:
the result is `True` exactly for a stripped-lowercased response `"y"`. -/
lemma check_contrast_fail {fg bg resp : List Char} {r : ℝ}
    (hr : calculate_contrast_ratio fg bg = .ok r) (hfail : r < 4.5) :
    check_contrast_and_warn fg bg resp =
      .ok (pyToLower (pyStrip resp) = ['y']) := by
  unfold check_contrast_and_warn
  rw [hr]
  dsimp only
  rw [if_neg (show ¬ meets_wcag_aa r from not_le.mpr hfail)]

/-- Behaviour of `check_contrast_and_warn` when the contrast meets WCAG AA:
`True` without consulting the response. -/
lemma check_contrast_pass {fg bg resp : List Char} {r : ℝ}
    (hr : calculate_contrast_ratio fg bg = .ok r) (hpass : 4.5 ≤ r) :
    check_contrast_and_warn fg bg resp = .ok true := by
  unfold check_contrast_and_warn
  rw [hr]
  dsimp only
  rw [if_pos (show meets_wcag_aa r from hpass)]

lemma lowerHex_not_hash {c : Char} (h : isLowerHexDigit c = true) :
    (decide (c = '#') : Bool) = false := by
  have hr := isLowerHexDigit_ranges h
  simp only [decide_eq_false_iff_not]
  intro he
  rw [he] at hr
  revert hr
  decide

/-- A `#`-prefixed literal of non-space lowercase characters reaches
`_parse_hex` unchanged. -/
lemma parse_color_hash {l : List Char}
    (hall : ∀ c ∈ l, isLowerHexDigit c = true) :
    parse_color ('#' :: l) = _parse_hex ('#' :: l) := by
  have hmem : ∀ c ∈ '#' :: l, pyIsSpace c = false ∧ pyLowerChar c = c := by
    intro c hc
    rcases List.mem_cons.mp hc with h1 | h1
    · exact h1 ▸ ⟨by decide, by decide⟩
    · exact ⟨pyIsSpace_of_lowerHex (hall c h1), pyLowerChar_of_lowerHex (hall c h1)⟩
  simp only [parse_color]
  rw [pyStrip_eq_self (fun c hc => (hmem c hc).1),
      pyToLower_eq_self (fun c hc => (hmem c hc).2)]
  rw [if_pos (show ('#' :: l).head? = some '#' from rfl)]

lemma pyTrunc_eval {q : ℚ} {n : ℤ} (h0 : 0 ≤ q) (h1 : (n : ℚ) ≤ q)
    (h2 : q < n + 1) : pyTrunc q = n := by
  unfold pyTrunc
  rw [if_pos h0]
  exact Int.floor_eq_iff.mpr ⟨h1, h2⟩

lemma hsl_red : parse_color "hsl(0,100%,50%)".toList = .ok (255, 0, 0) := by
  have hd : parse_color "hsl(0,100%,50%)".toList =
      _parse_hsl "hsl(0,100%,50%)".toList := rfl
  rw [hd]
  have hm : hslMatch "hsl(0,100%,50%)".toList = some (0, 100, 50) := rfl
  simp only [_parse_hsl, hm]
  rw [if_neg (not_not_intro (by norm_num : (0 : ℕ) ≤ 360)),
      if_neg (not_not_intro (by norm_num : ((100 : ℕ) : ℚ) / 100 ≤ 1)),
      if_neg (not_not_intro (by norm_num : ((50 : ℕ) : ℚ) / 100 ≤ 1))]
  have hC : hslChroma (((100 : ℕ) : ℚ) / 100) (((50 : ℕ) : ℚ) / 100) = 1 := by
    unfold hslChroma
    rw [show (2 * (((50 : ℕ) : ℚ) / 100) - 1) = 0 by norm_num, abs_zero]
    norm_num
  have hX : hslX (hslChroma (((100 : ℕ) : ℚ) / 100) (((50 : ℕ) : ℚ) / 100))
      0 = 0 := by
    rw [hC]
    unfold hslX pyMod
    rw [show (((0 : ℕ) : ℚ) / 60 / 2) = 0 by norm_num]
    rw [Int.floor_zero]
    norm_num
  have hM : hslM (((50 : ℕ) : ℚ) / 100)
      (hslChroma (((100 : ℕ) : ℚ) / 100) (((50 : ℕ) : ℚ) / 100)) = 0 := by
    rw [hC]
    unfold hslM
    norm_num
  have hS : hslSector 0 (hslChroma (((100 : ℕ) : ℚ) / 100) (((50 : ℕ) : ℚ) / 100))
      (hslX (hslChroma (((100 : ℕ) : ℚ) / 100) (((50 : ℕ) : ℚ) / 100)) 0) =
      (hslChroma (((100 : ℕ) : ℚ) / 100) (((50 : ℕ) : ℚ) / 100),
       hslX (hslChroma (((100 : ℕ) : ℚ) / 100) (((50 : ℕ) : ℚ) / 100)) 0, 0) := rfl
  rw [hS]
  dsimp only
  rw [show hslChannel (hslChroma (((100 : ℕ) : ℚ) / 100) (((50 : ℕ) : ℚ) / 100))
        (hslM (((50 : ℕ) : ℚ) / 100)
          (hslChroma (((100 : ℕ) : ℚ) / 100) (((50 : ℕ) : ℚ) / 100))) = 255 by
      unfold hslChannel
      rw [hM, hC]
      exact pyTrunc_eval (by norm_num) (by norm_num) (by norm_num)]
  rw [show hslChannel
        (hslX (hslChroma (((100 : ℕ) : ℚ) / 100) (((50 : ℕ) : ℚ) / 100)) 0)
        (hslM (((50 : ℕ) : ℚ) / 100)
          (hslChroma (((100 : ℕ) : ℚ) / 100) (((50 : ℕ) : ℚ) / 100))) = 0 by
      unfold hslChannel
      rw [hM, hX]
      exact pyTrunc_eval (by norm_num) (by norm_num) (by norm_num)]
  rw [show hslChannel 0
        (hslM (((50 : ℕ) : ℚ) / 100)
          (hslChroma (((100 : ℕ) : ℚ) / 100) (((50 : ℕ) : ℚ) / 100))) = 0 by
      unfold hslChannel
      rw [hM]
      exact pyTrunc_eval (by norm_num) (by norm_num) (by norm_num)]

lemma hsl_blue : parse_color "hsl(240,100%,50%)".toList = .ok (0, 0, 255) := by
  have hd : parse_color "hsl(240,100%,50%)".toList =
      _parse_hsl "hsl(240,100%,50%)".toList := rfl
  rw [hd]
  have hm : hslMatch "hsl(240,100%,50%)".toList = some (240, 100, 50) := rfl
  simp only [_parse_hsl, hm]
  rw [if_neg (not_not_intro (by norm_num : (240 : ℕ) ≤ 360)),
      if_neg (not_not_intro (by norm_num : ((100 : ℕ) : ℚ) / 100 ≤ 1)),
      if_neg (not_not_intro (by norm_num : ((50 : ℕ) : ℚ) / 100 ≤ 1))]
  have hC : hslChroma (((100 : ℕ) : ℚ) / 100) (((50 : ℕ) : ℚ) / 100) = 1 := by
    unfold hslChroma
    rw [show (2 * (((50 : ℕ) : ℚ) / 100) - 1) = 0 by norm_num, abs_zero]
    norm_num
  have hX : hslX (hslChroma (((100 : ℕ) : ℚ) / 100) (((50 : ℕ) : ℚ) / 100))
      240 = 0 := by
    rw [hC]
    unfold hslX pyMod
    rw [show (((240 : ℕ) : ℚ) / 60 / 2) = ((2 : ℤ) : ℚ) by norm_num,
        Int.floor_intCast]
    norm_num
  have hM : hslM (((50 : ℕ) : ℚ) / 100)
      (hslChroma (((100 : ℕ) : ℚ) / 100) (((50 : ℕ) : ℚ) / 100)) = 0 := by
    rw [hC]
    unfold hslM
    norm_num
  have hS : hslSector 240
      (hslChroma (((100 : ℕ) : ℚ) / 100) (((50 : ℕ) : ℚ) / 100))
      (hslX (hslChroma (((100 : ℕ) : ℚ) / 100) (((50 : ℕ) : ℚ) / 100)) 240) =
      (hslX (hslChroma (((100 : ℕ) : ℚ) / 100) (((50 : ℕ) : ℚ) / 100)) 240, 0,
       hslChroma (((100 : ℕ) : ℚ) / 100) (((50 : ℕ) : ℚ) / 100)) := rfl
  rw [hS]
  dsimp only
  rw [show hslChannel
        (hslX (hslChroma (((100 : ℕ) : ℚ) / 100) (((50 : ℕ) : ℚ) / 100)) 240)
        (hslM (((50 : ℕ) : ℚ) / 100)
          (hslChroma (((100 : ℕ) : ℚ) / 100) (((50 : ℕ) : ℚ) / 100))) = 0 by
      unfold hslChannel
      rw [hM, hX]
      exact pyTrunc_eval (by norm_num) (by norm_num) (by norm_num)]
  rw [show hslChannel 0
        (hslM (((50 : ℕ) : ℚ) / 100)
          (hslChroma (((100 : ℕ) : ℚ) / 100) (((50 : ℕ) : ℚ) / 100))) = 0 by
      unfold hslChannel
      rw [hM]
      exact pyTrunc_eval (by norm_num) (by norm_num) (by norm_num)]
  rw [show hslChannel (hslChroma (((100 : ℕ) : ℚ) / 100) (((50 : ℕ) : ℚ) / 100))
        (hslM (((50 : ℕ) : ℚ) / 100)
          (hslChroma (((100 : ℕ) : ℚ) / 100) (((50 : ℕ) : ℚ) / 100))) = 255 by
      unfold hslChannel
      rw [hM, hC]
      exact pyTrunc_eval (by norm_num) (by norm_num) (by norm_num)]

lemma darker_accent : suggest_darker "#0000ff".toList 15 = .ok "#0000d8".toList := by
  unfold suggest_darker
  rw [show parse_color "#0000ff".toList = Except.ok ((0 : ℤ), (0 : ℤ), (255 : ℤ))
    from rfl]
  dsimp only
  rw [show pyTrunc (((0 : ℤ) : ℚ) * (1 - 15 / 100)) = 0 from
        pyTrunc_eval (by norm_num) (by norm_num) (by norm_num),
      show pyTrunc (((255 : ℤ) : ℚ) * (1 - 15 / 100)) = 216 from
        pyTrunc_eval (by norm_num) (by norm_num) (by norm_num)]
  rfl

lemma lighter_background :
    suggest_lighter "#ffffff".toList 5 = .ok "#ffffff".toList := by
  unfold suggest_lighter
  rw [show parse_color "#ffffff".toList = Except.ok ((255 : ℤ), (255 : ℤ), (255 : ℤ))
    from rfl]
  dsimp only
  rw [show pyTrunc (((255 : ℤ) : ℚ) + (255 - ((255 : ℤ) : ℚ)) * (5 / 100)) = 255 from
        pyTrunc_eval (by norm_num) (by norm_num) (by norm_num)]
  rfl

lemma darker_code_bg :
    suggest_darker "#f5f5f5".toList 10 = .ok "#dcdcdc".toList := by
  unfold suggest_darker
  rw [show parse_color "#f5f5f5".toList = Except.ok ((245 : ℤ), (245 : ℤ), (245 : ℤ))
    from rfl]
  dsimp only
  rw [show pyTrunc (((245 : ℤ) : ℚ) * (1 - 10 / 100)) = 220 from
        pyTrunc_eval (by norm_num) (by norm_num) (by norm_num)]
  rfl

/-- Evaluation of the CSS generator on the end-to-end scenario properties. -/
lemma generate_testCss :
    generate_css_from_properties testProps = .ok testCss := by
  unfold generate_css_from_properties
  rw [show testProps.accent_color = "#0000ff".toList from rfl,
      show testProps.background_color = "#ffffff".toList from rfl,
      show testProps.code_bg_color = "#f5f5f5".toList from rfl,
      darker_accent, lighter_background, darker_code_bg]
  rfl

/-! ## Substring reasoning over segmented strings

Evaluating a containment check over the whole generated stylesheet in one
go is out of reach of kernel reduction, so containment facts are
established segment by segment: a pattern occurs in the concatenation when
it occurs in one segment, and is absent when it occurs in no segment and
in no boundary window. -/

lemma listContains_iff {pat l : List Char} :
    listContains pat l = true ↔ pat <:+: l := by
  unfold listContains
  simp only [List.any_eq_true, List.mem_range]
  constructor
  · rintro ⟨i, _, hp⟩
    exact (List.isPrefixOf_iff_prefix.mp hp).isInfix.trans
      (List.drop_suffix i l).isInfix
  · rintro ⟨s, t, rfl⟩
    refine ⟨s.length, ?_, ?_⟩
    · simp only [List.length_append]
      omega
    · rw [List.append_assoc, List.drop_left]
      exact List.isPrefixOf_iff_prefix.mpr (List.prefix_append pat t)

lemma infix_append_cases {pat A B : List Char} (h : pat <:+: A ++ B) :
    pat <:+: A ∨ pat <:+: B ∨
    ∃ a b, a ≠ [] ∧ b ≠ [] ∧ pat = a ++ b ∧ a <:+ A ∧ b <+: B := by
  obtain ⟨s, t, he⟩ := h
  rw [List.append_assoc] at he
  rcases List.append_eq_append_iff.mp he with ⟨q, hq1, hq2⟩ | ⟨q, hq1, hq2⟩
  · rcases List.append_eq_append_iff.mp hq2 with ⟨x, hx1, hx2⟩ | ⟨y, hy1, hy2⟩
    · left
      exact ⟨s, x, by rw [hq1, hx1, List.append_assoc]⟩
    · by_cases hq0 : q = []
      · right
        left
        subst hq0
        simp only [List.nil_append] at hy1
        exact ⟨[], t, by rw [hy2, ← hy1, List.nil_append]⟩
      · by_cases hy0 : y = []
        · left
          subst hy0
          rw [List.append_nil] at hy1
          exact ⟨s, [], by rw [hq1, ← hy1, List.append_nil]⟩
        · right
          right
          exact ⟨q, y, hq0, hy0, hy1, ⟨s, hq1.symm⟩, ⟨t, hy2.symm⟩⟩
  · right
    left
    exact ⟨q, t, by rw [hq2, List.append_assoc]⟩

lemma suffix_lastN {a A : List Char} (h : a <:+ A) {k : ℕ}
    (hk : a.length ≤ k) : a <:+ A.drop (A.length - k) := by
  obtain ⟨w, rfl⟩ := h
  rw [List.drop_append_eq_append_drop]
  have h0 : (w ++ a).length - k - w.length = 0 := by
    simp only [List.length_append]
    omega
  rw [h0, List.drop_zero]
  exact List.suffix_append _ _

lemma prefix_firstN {b B : List Char} (h : b <+: B) {k : ℕ}
    (hk : b.length ≤ k) : b <+: B.take k := by
  obtain ⟨v, rfl⟩ := h
  refine ⟨v.take (k - b.length), ?_⟩
  rw [List.take_append_eq_append_take, List.take_of_length_le hk]

lemma cross_infix {a b X Y : List Char} (ha : a <:+ X) (hb : b <+: Y) :
    a ++ b <:+: X ++ Y := by
  obtain ⟨w, rfl⟩ := ha
  obtain ⟨v, rfl⟩ := hb
  exact ⟨w, v, by simp [List.append_assoc]⟩

lemma not_infix_append {pat A B : List Char}
    (hA : ¬ pat <:+: A) (hB : ¬ pat <:+: B)
    (hW : ¬ pat <:+:
      A.drop (A.length - (pat.length - 1)) ++ B.take (pat.length - 1)) :
    ¬ pat <:+: A ++ B := by
  intro h
  rcases infix_append_cases h with h1 | h1 | ⟨a, b, ha, hb, heq, hsuf, hpre⟩
  · exact hA h1
  · exact hB h1
  · apply hW
    subst heq
    have hb1 : 1 ≤ b.length := List.length_pos.mpr hb
    have ha1 : 1 ≤ a.length := List.length_pos.mpr ha
    exact cross_infix
      (suffix_lastN hsuf (by simp [List.length_append]; omega))
      (prefix_firstN hpre (by simp [List.length_append]; omega))

lemma joinList_cons (s : List Char) (rest : List (List Char)) :
    joinList (s :: rest) = s ++ joinList rest := rfl

lemma infix_joinList_of_mem {pat s : List Char} {segs : List (List Char)}
    (hs : s ∈ segs) (h : pat <:+: s) : pat <:+: joinList segs := by
  induction segs with
  | nil => simp at hs
  | cons a rest ih =>
    rw [joinList_cons]
    rcases List.mem_cons.mp hs with h1 | h1
    · obtain ⟨x, y, hxy⟩ := h1 ▸ h
      exact ⟨x, y ++ joinList rest, by rw [← List.append_assoc, hxy]⟩
    · obtain ⟨x, y, hxy⟩ := ih h1
      exact ⟨a ++ x, y, by rw [← hxy]; simp [List.append_assoc]⟩

lemma noCrossCheck_sound {pat : List Char} (hp : pat ≠ []) :
    ∀ segs : List (List Char), noCrossCheck pat segs = true →
      ¬ pat <:+: joinList segs := by
  intro segs
  induction segs with
  | nil =>
    intro _ hinf
    obtain ⟨s, t, he⟩ := hinf
    rw [show joinList [] = [] from rfl] at he
    rcases List.append_eq_nil.mp he with ⟨he1, -⟩
    exact hp (List.append_eq_nil.mp he1).2
  | cons s rest ih =>
    intro hchk
    simp only [noCrossCheck, Bool.and_eq_true, Bool.not_eq_true'] at hchk
    obtain ⟨⟨h1, h2⟩, h3⟩ := hchk
    rw [joinList_cons]
    exact not_infix_append
      (fun hx => by rw [listContains_iff.mpr hx] at h1; cases h1)
      (ih h3)
      (fun hx => by rw [listContains_iff.mpr hx] at h2; cases h2)

/-- The segmented form of the end-to-end stylesheet. -/
lemma testCss_eq_join : testCss = joinList testCssSegs := by
  simp only [testCss, cssTemplate, testProps, testCssSegs, joinList,
    List.foldr_cons, List.foldr_nil, List.append_nil, List.append_assoc]

/-! ## Claims -/

/-- C9: at the final "Create theme?" confirmation, the wizard generates and
saves the theme file exactly when the operator's trimmed, lowercased
response is the empty string or exactly `"y"`; every other non-empty
response — including affirmative words such as `"yes"` — cancels the run
with no file written. -/
theorem C9_final_confirmation_exact_y :
    (∀ response : List Char, run_wizard_confirms response = true ↔
      (pyToLower (pyStrip response) = [] ∨ pyToLower (pyStrip response) = ['y'])) ∧
    run_wizard_confirms "yes".toList = false := by
  constructor
  · intro response
    unfold run_wizard_confirms
    by_cases h1 : pyToLower (pyStrip response) = []
    · simp [h1]
    · by_cases h2 : pyToLower (pyStrip response) = ['y'] <;> simp [h1, h2]
  · rfl

/-- C10: `validate_font_size` accepts `"nan"` and `"nanpt"` without raising:
the value parses as floating-point NaN, which satisfies neither the
`value <= 0` check nor the `value > 100` check, so a non-finite font size
passes validation even though it is neither positive nor bounded. -/
theorem C10_validate_font_size_accepts_nan :
    validate_font_size "nan".toList = .ok () ∧
    validate_font_size "nanpt".toList = .ok () ∧
    pyFloatOfString "nan".toList = some PyFloat.nan ∧
    PyFloat.nan.lep (.finite 0) = false ∧
    (PyFloat.finite 100).ltp PyFloat.nan = false :=
  ⟨rfl, rfl, rfl, rfl, rfl⟩

/-- C5 counterexample: `validate_theme_name` accepts the non-ASCII name
`"théme"` (when no theme of that name exists), because Python's
`str.isalnum` is Unicode-aware and classifies `é` as alphanumeric — the
claim asserts this name is rejected. -/
theorem C5_counterexample_accents_accepted :
    validate_theme_name [] "théme".toList = .ok () := rfl

/-- C5 (amended): `validate_theme_name` raises for the empty string, for
names containing characters that are neither Unicode-alphanumeric nor
`-`/`_` (rejecting `"my theme"` and `"theme/x"`), and for names already
among the listed themes; but the character check uses Unicode `isalnum`,
so the non-ASCII `"théme"` is accepted when new, as is `"my-theme_2"`. -/
theorem C5_validate_theme_name_amended (existing : List (List Char)) :
    (validate_theme_name existing []).isOk = false ∧
    (validate_theme_name existing "my theme".toList).isOk = false ∧
    (validate_theme_name existing "theme/x".toList).isOk = false ∧
    ("théme".toList ∉ existing →
      validate_theme_name existing "théme".toList = .ok ()) ∧
    ("my-theme_2".toList ∉ existing →
      validate_theme_name existing "my-theme_2".toList = .ok ()) ∧
    (∀ name, name ∈ existing → (validate_theme_name existing name).isOk = false) := by
  refine ⟨rfl, rfl, rfl, ?_, ?_, ?_⟩
  · intro hnm
    unfold validate_theme_name
    rw [if_neg (by decide), if_neg (by decide), if_neg hnm]
  · intro hnm
    unfold validate_theme_name
    rw [if_neg (by decide), if_neg (by decide), if_neg hnm]
  · intro name hnm
    unfold validate_theme_name
    by_cases h1 : name.isEmpty
    · rw [if_pos h1]
      rfl
    · rw [if_neg h1]
      by_cases h2 : (name.all fun c => pyIsAlnum c || c = '-' || c = '_') = true
      · rw [if_neg (not_not_intro h2), if_pos hnm]
        rfl
      · rw [if_pos h2]
        rfl

/-- C5 witness: with one unrelated existing theme, `"my-theme_2"` is
accepted and the existing name is rejected. -/
theorem C5_witness :
    validate_theme_name ["old".toList] "my-theme_2".toList = .ok () ∧
    (validate_theme_name ["old".toList] "old".toList).isOk = false :=
  ⟨(C5_validate_theme_name_amended ["old".toList]).2.2.2.2.1 (by decide),
   (C5_validate_theme_name_amended ["old".toList]).2.2.2.2.2 "old".toList
     (by decide)⟩

/-- C4 counterexample: `parse_color` succeeds on `"##fff"` — whose remainder
after the first `#` has length 4, neither 3 nor 6 hex digits — because
`_parse_hex` strips every leading `#`; the claim asserts such a literal
raises a format error. -/
theorem C4_counterexample_double_hash :
    ("##fff".toList.drop 1).length = 4 ∧
    parse_color "##fff".toList = .ok (255, 255, 255) := ⟨rfl, rfl⟩

/-- C4 (amended): if the remainder after `#` is exactly 3 or 6 lowercase hex
digits, `parse_color` succeeds with the documented channel values (each in
[0,255], the 3-digit form expanding each digit by duplication); the converse
direction of the claim fails, since other literals such as `"##fff"` also
parse (all leading `#` are stripped, and the per-slice integer parse
tolerates signs and blanks). -/
theorem C4_hex_grammar_amended :
    (∀ a b c : Char, isLowerHexDigit a = true → isLowerHexDigit b = true →
      isLowerHexDigit c = true →
      parse_color ['#', a, b, c] =
        .ok (((17 * hexVal a : ℕ) : ℤ), ((17 * hexVal b : ℕ) : ℤ),
             ((17 * hexVal c : ℕ) : ℤ))) ∧
    (∀ a b c d e f : Char, isLowerHexDigit a = true → isLowerHexDigit b = true →
      isLowerHexDigit c = true → isLowerHexDigit d = true →
      isLowerHexDigit e = true → isLowerHexDigit f = true →
      parse_color ['#', a, b, c, d, e, f] =
        .ok (((16 * hexVal a + hexVal b : ℕ) : ℤ),
             ((16 * hexVal c + hexVal d : ℕ) : ℤ),
             ((16 * hexVal e + hexVal f : ℕ) : ℤ))) := by
  constructor
  · intro a b c ha hb hc
    have hall : ∀ x ∈ [a, b, c], isLowerHexDigit x = true := by
      intro x hx
      rcases List.mem_cons.mp hx with h1 | h1
      · exact h1 ▸ ha
      rcases List.mem_cons.mp h1 with h2 | h2
      · exact h2 ▸ hb
      rcases List.mem_cons.mp h2 with h3 | h3
      · exact h3 ▸ hc
      · simp at h3
    rw [parse_color_hash hall]
    simp only [_parse_hex]
    rw [List.dropWhile_cons_of_pos (by decide),
        dropWhile_eq_self_of_none (fun x hx => lowerHex_not_hash (hall x hx))]
    rw [show hexExpand [a, b, c] = [a, a, b, b, c, c] from by simp [hexExpand]]
    rw [if_neg (by simp)]
    have e1 : ([a, a, b, b, c, c] : List Char).take 2 = [a, a] := rfl
    have e2 : (([a, a, b, b, c, c] : List Char).drop 2).take 2 = [b, b] := rfl
    have e3 : ([a, a, b, b, c, c] : List Char).drop 4 = [c, c] := rfl
    rw [e1, e2, e3, pyIntBase16_two_hex ha ha, pyIntBase16_two_hex hb hb,
        pyIntBase16_two_hex hc hc]
    simp only [Except.ok.injEq, Prod.mk.injEq]
    refine ⟨?_, ?_, ?_⟩ <;> exact congrArg _ (by ring)
  · intro a b c d e f ha hb hc hd he hf
    have hall : ∀ x ∈ [a, b, c, d, e, f], isLowerHexDigit x = true := by
      intro x hx
      simp only [List.mem_cons, List.not_mem_nil, or_false] at hx
      rcases hx with h | h | h | h | h | h <;>
        simp [h, ha, hb, hc, hd, he, hf]
    rw [parse_color_hash hall]
    simp only [_parse_hex]
    rw [List.dropWhile_cons_of_pos (by decide),
        dropWhile_eq_self_of_none (fun x hx => lowerHex_not_hash (hall x hx))]
    rw [show hexExpand [a, b, c, d, e, f] = [a, b, c, d, e, f] from by
      simp [hexExpand]]
    rw [if_neg (by simp)]
    have e1 : ([a, b, c, d, e, f] : List Char).take 2 = [a, b] := rfl
    have e2 : (([a, b, c, d, e, f] : List Char).drop 2).take 2 = [c, d] := rfl
    have e3 : ([a, b, c, d, e, f] : List Char).drop 4 = [e, f] := rfl
    rw [e1, e2, e3, pyIntBase16_two_hex ha hb, pyIntBase16_two_hex hc hd,
        pyIntBase16_two_hex he hf]
    simp only [Except.ok.injEq, Prod.mk.injEq]
    refine ⟨?_, ?_, ?_⟩ <;> exact congrArg _ (by ring)

/-- C4 witness: the amended theorem applied to `"#1ab"`. -/
theorem C4_witness :
    parse_color "#1ab".toList =
      .ok (((17 * hexVal '1' : ℕ) : ℤ), ((17 * hexVal 'a' : ℕ) : ℤ),
           ((17 * hexVal 'b' : ℕ) : ℤ)) :=
  C4_hex_grammar_amended.1 '1' 'a' 'b' rfl rfl rfl

/-- C7: `parse_color` maps `"hsl(0,100%,50%)"` to `(255,0,0)` and
`"hsl(240,100%,50%)"` to `(0,0,255)` via the sector algorithm, and every
matched HSL literal with H above 360 or S or L above 100 raises a format
error rather than clamping. -/
theorem C7_hsl_conversion :
    parse_color "hsl(0,100%,50%)".toList = .ok (255, 0, 0) ∧
    parse_color "hsl(240,100%,50%)".toList = .ok (0, 0, 255) ∧
    ∀ s h sat lig, hslMatch s = some (h, sat, lig) →
      (360 < h ∨ 100 < sat ∨ 100 < lig) →
      ∃ e, _parse_hsl s = .error e := by
  refine ⟨hsl_red, hsl_blue, ?_⟩
  intro s h sat lig hm hout
  unfold _parse_hsl
  rw [hm]
  dsimp only
  by_cases h360 : h ≤ 360
  case neg => exact ⟨_, if_pos h360⟩
  rw [if_neg (not_not_intro h360)]
  by_cases hsat : (sat : ℚ) / 100 ≤ 1
  case neg => exact ⟨_, if_pos hsat⟩
  rw [if_neg (not_not_intro hsat)]
  by_cases hlig : (lig : ℚ) / 100 ≤ 1
  case neg => exact ⟨_, if_pos hlig⟩
  exfalso
  rw [div_le_one (by norm_num)] at hsat hlig
  have hs100 : sat ≤ 100 := by exact_mod_cast hsat
  have hl100 : lig ≤ 100 := by exact_mod_cast hlig
  rcases hout with ho | ho | ho <;> omega

/-- C7 witness: `"hsl(361,100%,50%)"` matches the pattern with H = 361 and
is rejected. -/
theorem C7_witness : ∃ e, _parse_hsl "hsl(361,100%,50%)".toList = .error e :=
  C7_hsl_conversion.2.2 "hsl(361,100%,50%)".toList 361 100 50 rfl
    (by norm_num)

/-- C8: `calculate_contrast_ratio(a, b)` equals
`calculate_contrast_ratio(b, a)` whenever the former succeeds (both colors
valid). -/
theorem C8_contrast_symmetric (a b : List Char) (r : ℝ)
    (h : calculate_contrast_ratio a b = .ok r) :
    calculate_contrast_ratio b a = .ok r := by
  unfold calculate_contrast_ratio at h ⊢
  rcases hpa : parse_color a with ea | rgba <;>
    rcases hpb : parse_color b with eb | rgbb <;>
    rw [hpa, hpb] at h <;> dsimp only at h ⊢
  · exact absurd h (by simp)
  · exact absurd h (by simp)
  · exact absurd h (by simp)
  · simp only [Except.ok.injEq] at h
    subst h
    rcases lt_trichotomy (get_relative_luminance rgba)
      (get_relative_luminance rgbb) with hlt | heq | hgt
    · rw [if_pos hlt, if_neg (lt_asymm hlt)]
    · rw [heq, if_neg (lt_irrefl _)]
    · rw [if_neg (lt_asymm hgt), if_pos hgt]

/-- C8 witness: symmetry applied to black on white. -/
theorem C8_witness :
    calculate_contrast_ratio "#000000".toList "#ffffff".toList = .ok 21 :=
  C8_contrast_symmetric "#ffffff".toList "#000000".toList 21 ratio_white_black

/-- C2 counterexample: on a white background with white text the ratio is
exactly 1 (fails WCAG AA), and the empty override response makes the
wizard re-prompt the same field rather than accept and advance as the
claim states. -/
theorem C2_counterexample_empty_response_retries :
    calculate_contrast_ratio "#ffffff".toList "#ffffff".toList = .ok 1 ∧
    ¬ meets_wcag_aa 1 ∧
    text_color_step "#ffffff".toList "#ffffff".toList [] = .ok FieldStep.retry := by
  refine ⟨ratio_white_white, by norm_num [meets_wcag_aa], ?_⟩
  unfold text_color_step
  rw [parse_white]
  dsimp only
  rw [show rgb_to_hex (255, 255, 255) = "#ffffff".toList from rfl,
      check_contrast_fail ratio_white_white (by norm_num)]
  rfl

/-- C2 (amended): in the contrast-override prompt of a contrast-checked
field whose ratio fails WCAG AA, an explicit `"y"` (after trimming and
lowercasing) accepts the current value and advances; every other response —
including the empty response and explicit negatives — returns control to
re-prompt the same field. -/
theorem C2_contrast_override_amended (bg text resp : List Char) (rgb : RGB)
    (r : ℝ) (hp : parse_color text = .ok rgb)
    (hr : calculate_contrast_ratio (rgb_to_hex rgb) bg = .ok r)
    (hfail : r < 4.5) :
    text_color_step bg text resp =
      .ok (if pyToLower (pyStrip resp) = ['y'] then FieldStep.advance
           else FieldStep.retry) := by
  unfold text_color_step
  rw [hp]
  dsimp only
  rw [check_contrast_fail hr hfail]
  by_cases hy : pyToLower (pyStrip resp) = ['y']
  · rw [if_pos hy]
    simp [hy]
  · rw [if_neg hy]
    simp [hy]

/-- C2 witness: white text on white background with response `"n"`
re-prompts. -/
theorem C2_witness :
    text_color_step "#ffffff".toList "#ffffff".toList "n".toList =
      .ok FieldStep.retry := by
  have h := C2_contrast_override_amended "#ffffff".toList "#ffffff".toList
    "n".toList (255, 255, 255) 1 parse_white
    (show calculate_contrast_ratio (rgb_to_hex (255, 255, 255))
        "#ffffff".toList = .ok 1 from ratio_white_white)
    (by norm_num)
  simpa using h

set_option maxRecDepth 8000 in
set_option maxHeartbeats 2000000 in
/-- C3 (code bug): on the end-to-end scenario properties (background
`#ffffff`, text `#000000`, accent `#0000ff`), the generated CSS contains the
three hex values verbatim, a `@page` rule and a `.page-break` rule, but NOT
the `.document-section-header` class rule the claim requires — the template
emits an ID selector `#document-section-header` instead, which can never
match the `class="document-section-header"` markup produced by the merge
step in `core.py`. -/
theorem C3_document_section_header_id_not_class :
    generate_css_from_properties testProps = .ok testCss ∧
    listContains "#ffffff".toList testCss = true ∧
    listContains "#000000".toList testCss = true ∧
    listContains "#0000ff".toList testCss = true ∧
    listContains "@page".toList testCss = true ∧
    listContains ".page-break".toList testCss = true ∧
    listContains ".document-section-header".toList testCss = false ∧
    listContains "#document-section-header".toList testCss = true := by
  have hneg : ¬ (".document-section-header".toList <:+: joinList testCssSegs) :=
    noCrossCheck_sound (by decide) testCssSegs rfl
  refine ⟨generate_testCss, ?_, ?_, ?_, ?_, ?_, ?_, ?_⟩ <;> rw [testCss_eq_join]
  · exact listContains_iff.mpr
      (infix_joinList_of_mem (List.mem_cons_of_mem _ (List.mem_cons_of_mem _ (List.mem_cons_of_mem _ (List.mem_cons_of_mem _ (List.mem_cons_of_mem _ (List.mem_cons_of_mem _ (List.mem_cons_of_mem _ (List.mem_cons_of_mem _ (List.mem_cons_of_mem _ (List.mem_cons_self _ _)))))))))) (List.infix_refl _))
  · exact listContains_iff.mpr
      (infix_joinList_of_mem (List.mem_cons_of_mem _ (List.mem_cons_of_mem _ (List.mem_cons_of_mem _ (List.mem_cons_of_mem _ (List.mem_cons_of_mem _ (List.mem_cons_of_mem _ (List.mem_cons_of_mem _ (List.mem_cons_self _ _)))))))) (List.infix_refl _))
  · exact listContains_iff.mpr
      (infix_joinList_of_mem (List.mem_cons_of_mem _ (List.mem_cons_of_mem _ (List.mem_cons_of_mem _ (List.mem_cons_of_mem _ (List.mem_cons_of_mem _ (List.mem_cons_of_mem _ (List.mem_cons_of_mem _ (List.mem_cons_of_mem _ (List.mem_cons_of_mem _ (List.mem_cons_of_mem _ (List.mem_cons_of_mem _ (List.mem_cons_of_mem _ (List.mem_cons_of_mem _ (List.mem_cons_of_mem _ (List.mem_cons_of_mem _ (List.mem_cons_self _ _)))))))))))))))) (List.infix_refl _))
  · exact listContains_iff.mpr
      (infix_joinList_of_mem (List.mem_cons_of_mem _ (List.mem_cons_of_mem _ (List.mem_cons_self _ _))) (listContains_iff.mp rfl))
  · exact listContains_iff.mpr
      (infix_joinList_of_mem (List.mem_cons_of_mem _ (List.mem_cons_of_mem _ (List.mem_cons_of_mem _ (List.mem_cons_of_mem _ (List.mem_cons_of_mem _ (List.mem_cons_of_mem _ (List.mem_cons_of_mem _ (List.mem_cons_of_mem _ (List.mem_cons_of_mem _ (List.mem_cons_of_mem _ (List.mem_cons_of_mem _ (List.mem_cons_of_mem _ (List.mem_cons_of_mem _ (List.mem_cons_of_mem _ (List.mem_cons_of_mem _ (List.mem_cons_of_mem _ (List.mem_cons_of_mem _ (List.mem_cons_of_mem _ (List.mem_cons_of_mem _ (List.mem_cons_of_mem _ (List.mem_cons_of_mem _ (List.mem_cons_of_mem _ (List.mem_cons_of_mem _ (List.mem_cons_of_mem _ (List.mem_cons_of_mem _ (List.mem_cons_of_mem _ (List.mem_cons_of_mem _ (List.mem_cons_of_mem _ (List.mem_cons_of_mem _ (List.mem_cons_of_mem _ (List.mem_cons_of_mem _ (List.mem_cons_of_mem _ (List.mem_cons_of_mem _ (List.mem_cons_of_mem _ (List.mem_cons_of_mem _ (List.mem_cons_of_mem _ (List.mem_cons_of_mem _ (List.mem_cons_of_mem _ (List.mem_cons_of_mem _ (List.mem_cons_of_mem _ (List.mem_cons_of_mem _ (List.mem_cons_of_mem _ (List.mem_cons_of_mem _ (List.mem_cons_of_mem _ (List.mem_cons_of_mem _ (List.mem_cons_of_mem _ (List.mem_cons_of_mem _ (List.mem_cons_of_mem _ (List.mem_cons_of_mem _ (List.mem_cons_of_mem _ (List.mem_cons_of_mem _ (List.mem_cons_of_mem _ (List.mem_cons_of_mem _ (List.mem_cons_of_mem _ (List.mem_cons_of_mem _ (List.mem_cons_of_mem _ (List.mem_cons_of_mem _ (List.mem_cons_of_mem _ (List.mem_cons_of_mem _ (List.mem_cons_of_mem _ (List.mem_cons_of_mem _ (List.mem_cons_of_mem _ (List.mem_cons_of_mem _ (List.mem_cons_of_mem _ (List.mem_cons_of_mem _ (List.mem_cons_of_mem _ (List.mem_cons_of_mem _ (List.mem_cons_self _ _)))))))))))))))))))))))))))))))))))))))))))))))))))))))))))))))))))) (listContains_iff.mp rfl))
  · cases hc : listContains ".document-section-header".toList
        (joinList testCssSegs) with
    | false => rfl
    | true => exact absurd (listContains_iff.mp hc) hneg
  · exact listContains_iff.mpr
      (infix_joinList_of_mem (List.mem_cons_of_mem _ (List.mem_cons_of_mem _ (List.mem_cons_of_mem _ (List.mem_cons_of_mem _ (List.mem_cons_of_mem _ (List.mem_cons_of_mem _ (List.mem_cons_of_mem _ (List.mem_cons_of_mem _ (List.mem_cons_of_mem _ (List.mem_cons_of_mem _ (List.mem_cons_of_mem _ (List.mem_cons_of_mem _ (List.mem_cons_of_mem _ (List.mem_cons_of_mem _ (List.mem_cons_of_mem _ (List.mem_cons_of_mem _ (List.mem_cons_self _ _))))))))))))))))) (listContains_iff.mp rfl))

set_option maxRecDepth 4000 in
/-- C6: whenever `generate_css_from_properties` succeeds, the emitted CSS
ends with the fixed `.page-break` rule, which forces a page break via both
the legacy (`page-break-after: always`) and standard (`break-after: page`)
properties, and whose only border declaration is `border: none` with zero
height and padding — nothing in it paints a visible line. -/
theorem C6_page_break_rule (p : ThemeProps) (css : List Char)
    (h : generate_css_from_properties p = .ok css) :
    pageBreakRule <:+ css ∧
    listContains "page-break-after: always;".toList pageBreakRule = true ∧
    listContains "break-after: page;".toList pageBreakRule = true ∧
    listContains "border: none;".toList pageBreakRule = true ∧
    listContains "height: 0;".toList pageBreakRule = true ∧
    listContains "padding: 0;".toList pageBreakRule = true ∧
    countOccur "border".toList pageBreakRule = 1 := by
  refine ⟨?_, rfl, rfl, rfl, rfl, rfl, rfl⟩
  unfold generate_css_from_properties at h
  rcases h1 : suggest_darker p.accent_color 15 with e1 | hover
  · rw [h1] at h
    simp at h
  rw [h1] at h
  dsimp only at h
  rcases h2 : suggest_lighter p.background_color 5 with e2 | alt
  · rw [h2] at h
    simp at h
  rw [h2] at h
  dsimp only at h
  rcases h3 : suggest_darker p.code_bg_color 10 with e3 | border
  · rw [h3] at h
    simp at h
  rw [h3] at h
  dsimp only at h
  simp only [Except.ok.injEq] at h
  subst h
  unfold cssTemplate
  exact List.suffix_append _ _

/-- C6 witness: the `.page-break` rule is a suffix of the CSS generated for
the end-to-end scenario properties. -/
theorem C6_witness : pageBreakRule <:+ testCss :=
  (C6_page_break_rule testProps testCss generate_testCss).1

/-! ## Lemmas for the accessible-color suggestion (C1) -/

lemma parse_color_bounded {s : List Char} {x : RGB}
    (h : parse_color s = .ok x) : rgbBounded x := by
  obtain ⟨r, g, b⟩ := x
  exact parse_color_bounds h

lemma ratio_eval {c1 c2 : List Char} {x1 x2 : RGB}
    (h1 : parse_color c1 = .ok x1) (h2 : parse_color c2 = .ok x2) :
    calculate_contrast_ratio c1 c2 = .ok (contrastOfRGB x1 x2) := by
  unfold calculate_contrast_ratio contrastOfRGB
  rw [h1, h2]

lemma pyTrunc_mem {q : ℚ} (h1 : -15 ≤ q) (h2 : q ≤ 255) :
    -15 ≤ pyTrunc q ∧ pyTrunc q ≤ 255 := by
  unfold pyTrunc
  split
  · next h0 =>
    constructor
    · have := Int.floor_nonneg.mpr h0
      omega
    · have h3 : ((⌊q⌋ : ℤ) : ℚ) ≤ 255 := le_trans (Int.floor_le q) h2
      exact_mod_cast h3
  · next h0 =>
    push_neg at h0
    constructor
    · have h3 : ((-15 : ℤ) : ℚ) ≤ (⌈q⌉ : ℚ) :=
        le_trans (by exact_mod_cast h1) (Int.le_ceil q)
      exact_mod_cast h3
    · have := Int.ceil_le.mpr (show q ≤ ((0 : ℤ) : ℚ) by
        exact_mod_cast le_of_lt h0)
      omega

lemma mul_factor_bounds {ch f : ℚ} (h1 : -15 ≤ ch) (h2 : ch ≤ 255)
    (hf0 : 0 ≤ f) (hf1 : f ≤ 1) : -15 ≤ ch * f ∧ ch * f ≤ 255 := by
  constructor
  · nlinarith [mul_nonneg (by linarith : (0 : ℚ) ≤ ch + 15) hf0]
  · nlinarith [mul_nonneg (by linarith : (0 : ℚ) ≤ 255 - ch) hf0]

lemma lighter_factor_bounds {ch f : ℚ} (h1 : -15 ≤ ch) (h2 : ch ≤ 255)
    (hf0 : 0 ≤ f) (hf1 : f ≤ 1) :
    -15 ≤ ch + (255 - ch) * f ∧ ch + (255 - ch) * f ≤ 255 := by
  constructor
  · nlinarith [mul_nonneg (by linarith : (0 : ℚ) ≤ 255 - ch) hf0]
  · nlinarith [mul_nonneg (by linarith : (0 : ℚ) ≤ 255 - ch)
      (by linarith : (0 : ℚ) ≤ 1 - f)]

lemma suggest_darker_provides {fg : List Char} {x : RGB}
    (hp : parse_color fg = .ok x) (hbnd : rgbBounded x) {p : ℚ}
    (hp0 : 0 ≤ p) (hp1 : p ≤ 100) :
    ∃ x' : RGB, suggest_darker fg p = .ok (rgb_to_hex x') ∧ rgbBounded x' := by
  unfold suggest_darker
  rw [hp]
  dsimp only
  obtain ⟨⟨h1, h2⟩, ⟨h3, h4⟩, h5, h6⟩ := hbnd
  have hf0 : (0 : ℚ) ≤ 1 - p / 100 := by linarith
  have hf1 : 1 - p / 100 ≤ 1 := by
    have : (0 : ℚ) ≤ p / 100 := by positivity
    linarith
  refine ⟨_, rfl, ?_, ?_, ?_⟩
  · obtain ⟨k1, k2⟩ := mul_factor_bounds
      (show (-15 : ℚ) ≤ (x.1 : ℚ) from by exact_mod_cast h1)
      (show ((x.1 : ℚ)) ≤ 255 from by exact_mod_cast h2) hf0 hf1
    exact pyTrunc_mem k1 k2
  · obtain ⟨k1, k2⟩ := mul_factor_bounds
      (show (-15 : ℚ) ≤ (x.2.1 : ℚ) from by exact_mod_cast h3)
      (show ((x.2.1 : ℚ)) ≤ 255 from by exact_mod_cast h4) hf0 hf1
    exact pyTrunc_mem k1 k2
  · obtain ⟨k1, k2⟩ := mul_factor_bounds
      (show (-15 : ℚ) ≤ (x.2.2 : ℚ) from by exact_mod_cast h5)
      (show ((x.2.2 : ℚ)) ≤ 255 from by exact_mod_cast h6) hf0 hf1
    exact pyTrunc_mem k1 k2

lemma suggest_lighter_provides {fg : List Char} {x : RGB}
    (hp : parse_color fg = .ok x) (hbnd : rgbBounded x) {p : ℚ}
    (hp0 : 0 ≤ p) (hp1 : p ≤ 100) :
    ∃ x' : RGB, suggest_lighter fg p = .ok (rgb_to_hex x') ∧ rgbBounded x' := by
  unfold suggest_lighter
  rw [hp]
  dsimp only
  obtain ⟨⟨h1, h2⟩, ⟨h3, h4⟩, h5, h6⟩ := hbnd
  have hf0 : (0 : ℚ) ≤ p / 100 := by positivity
  have hf1 : p / 100 ≤ 1 := by linarith
  refine ⟨_, rfl, ?_, ?_, ?_⟩
  · obtain ⟨k1, k2⟩ := lighter_factor_bounds
      (show (-15 : ℚ) ≤ (x.1 : ℚ) from by exact_mod_cast h1)
      (show ((x.1 : ℚ)) ≤ 255 from by exact_mod_cast h2) hf0 hf1
    exact pyTrunc_mem k1 k2
  · obtain ⟨k1, k2⟩ := lighter_factor_bounds
      (show (-15 : ℚ) ≤ (x.2.1 : ℚ) from by exact_mod_cast h3)
      (show ((x.2.1 : ℚ)) ≤ 255 from by exact_mod_cast h4) hf0 hf1
    exact pyTrunc_mem k1 k2
  · obtain ⟨k1, k2⟩ := lighter_factor_bounds
      (show (-15 : ℚ) ≤ (x.2.2 : ℚ) from by exact_mod_cast h5)
      (show ((x.2.2 : ℚ)) ≤ 255 from by exact_mod_cast h6) hf0 hf1
    exact pyTrunc_mem k1 k2

lemma parse_rgb_to_hex_bounded {x : RGB} (h : rgbBounded x) :
    parse_color (rgb_to_hex x) = .ok x := by
  obtain ⟨r, g, b⟩ := x
  exact parse_color_rgb_to_hex h.1 h.2.1 h.2.2

lemma pyRangeAux_lt {stop step : ℕ} :
    ∀ {fuel cur p : ℕ}, p ∈ pyRangeAux fuel cur stop step → p < stop := by
  intro fuel
  induction fuel with
  | zero =>
    intro cur p hp
    simp [pyRangeAux] at hp
  | succ n ih =>
    intro cur p hp
    unfold pyRangeAux at hp
    split at hp
    · next hcur =>
      rcases List.mem_cons.mp hp with h1 | h1
      · exact h1 ▸ hcur
      · exact ih h1
    · simp at hp

lemma adjustLoop_cases
    (adjust : List Char → ℚ → Except String (List Char))
    (bg : List Char) (t : ℝ) (fg : List Char) :
    ∀ ps : List ℕ,
      (∀ p ∈ ps, ∃ c r, adjust fg (p : ℚ) = .ok c ∧
        calculate_contrast_ratio c bg = .ok r) →
      adjustLoop adjust bg t fg ps = .ok none ∨
      ∃ c r, adjustLoop adjust bg t fg ps = .ok (some c) ∧
        calculate_contrast_ratio c bg = .ok r ∧ t ≤ r := by
  intro ps
  induction ps with
  | nil =>
    intro _
    left
    rfl
  | cons p ps ih =>
    intro hadj
    obtain ⟨c, r, hc, hr⟩ := hadj p (List.mem_cons_self p ps)
    have hrest := fun q hq => hadj q (List.mem_cons_of_mem p hq)
    simp only [adjustLoop]
    rw [hc]
    dsimp only
    rw [hr]
    dsimp only
    by_cases hrt : t ≤ r
    · right
      exact ⟨c, r, by rw [if_pos hrt], hr, hrt⟩
    · rw [if_neg hrt]
      exact ih hrest

/-- C1: for valid foreground and background literals and any target ratio,
`suggest_accessible_color` never raises and returns a color that either
meets the target contrast against the background, or is exactly `#000000`
(light background, luminance above 0.5) or exactly `#ffffff` (otherwise);
when the current contrast already meets the target it returns the
foreground normalized to 6-digit hex.  The adjustment range constants are
spec-modelled (see `adjustmentRange`): start above 0, fixed positive step,
ceiling at most 100. -/
theorem C1_suggest_accessible_color_sound
    (astart astop astep : ℕ) (hstart : 0 < astart) (hstop : astop ≤ 100)
    (hstep : 0 < astep) (fg bg : List Char) (t : ℝ) (rgbf rgbb : RGB)
    (hf : parse_color fg = .ok rgbf) (hb : parse_color bg = .ok rgbb) :
    ∃ c, suggest_accessible_color astart astop astep fg bg t = .ok c ∧
      ((∃ r, calculate_contrast_ratio c bg = .ok r ∧ t ≤ r) ∨
       (c = "#000000".toList ∧ 0.5 < get_relative_luminance rgbb) ∨
       (c = "#ffffff".toList ∧ ¬ 0.5 < get_relative_luminance rgbb)) ∧
      (∀ r0, calculate_contrast_ratio fg bg = .ok r0 → t ≤ r0 →
        c = rgb_to_hex rgbf) := by
  have hcur : calculate_contrast_ratio fg bg = .ok (contrastOfRGB rgbf rgbb) :=
    ratio_eval hf hb
  have hbndf := parse_color_bounded hf
  unfold suggest_accessible_color
  rw [hcur]
  dsimp only
  by_cases hct : t ≤ contrastOfRGB rgbf rgbb
  · rw [if_pos hct, hf]
    dsimp only
    refine ⟨rgb_to_hex rgbf, rfl, ?_, fun _ _ _ => rfl⟩
    left
    exact ⟨contrastOfRGB rgbf rgbb,
      ratio_eval (parse_rgb_to_hex_bounded hbndf) hb, hct⟩
  · have hlast : ∀ r0 : ℝ,
        (Except.ok (contrastOfRGB rgbf rgbb) : Except String ℝ) = .ok r0 →
        t ≤ r0 → ∀ c : List Char, c = rgb_to_hex rgbf := by
      intro r0 h0 ht0
      exact absurd (le_of_le_of_eq ht0 (Except.ok.inj h0).symm) hct
    rw [if_neg hct, hb]
    dsimp only
    have hadjD : ∀ p ∈ adjustmentRange astart astop astep,
        ∃ c r, suggest_darker fg (p : ℚ) = .ok c ∧
          calculate_contrast_ratio c bg = .ok r := by
      intro p hp
      have hple : (p : ℚ) ≤ 100 := by
        have h100 : p < astop := pyRangeAux_lt hp
        have : p ≤ 100 := by omega
        exact_mod_cast this
      obtain ⟨x', hok, hbnd'⟩ :=
        suggest_darker_provides hf hbndf (by positivity) hple
      exact ⟨_, _, hok, ratio_eval (parse_rgb_to_hex_bounded hbnd') hb⟩
    have hadjL : ∀ p ∈ adjustmentRange astart astop astep,
        ∃ c r, suggest_lighter fg (p : ℚ) = .ok c ∧
          calculate_contrast_ratio c bg = .ok r := by
      intro p hp
      have hple : (p : ℚ) ≤ 100 := by
        have h100 : p < astop := pyRangeAux_lt hp
        have : p ≤ 100 := by omega
        exact_mod_cast this
      obtain ⟨x', hok, hbnd'⟩ :=
        suggest_lighter_provides hf hbndf (by positivity) hple
      exact ⟨_, _, hok, ratio_eval (parse_rgb_to_hex_bounded hbnd') hb⟩
    by_cases hlum : 0.5 < get_relative_luminance rgbb
    · rw [if_pos hlum]
      rcases adjustLoop_cases suggest_darker bg t fg
          (adjustmentRange astart astop astep) hadjD with
        hnone | ⟨c, r, hsome, hrc, hrt⟩
      · rw [hnone]
        exact ⟨_, rfl, Or.inr (Or.inl ⟨rfl, hlum⟩),
          fun r0 h0 ht0 => hlast r0 h0 ht0 _⟩
      · rw [hsome]
        exact ⟨c, rfl, Or.inl ⟨r, hrc, hrt⟩,
          fun r0 h0 ht0 => hlast r0 h0 ht0 _⟩
    · rw [if_neg hlum]
      rcases adjustLoop_cases suggest_lighter bg t fg
          (adjustmentRange astart astop astep) hadjL with
        hnone | ⟨c, r, hsome, hrc, hrt⟩
      · rw [hnone]
        exact ⟨_, rfl, Or.inr (Or.inr ⟨rfl, hlum⟩),
          fun r0 h0 ht0 => hlast r0 h0 ht0 _⟩
      · rw [hsome]
        exact ⟨c, rfl, Or.inl ⟨r, hrc, hrt⟩,
          fun r0 h0 ht0 => hlast r0 h0 ht0 _⟩

/-- C1 witness: the theorem applied to black on white with the WCAG AA
target and the range 5, 10, ..., 95. -/
theorem C1_witness :
    ∃ c, suggest_accessible_color 5 100 5 "#000000".toList "#ffffff".toList
        4.5 = .ok c ∧
      ((∃ r, calculate_contrast_ratio c "#ffffff".toList = .ok r ∧ 4.5 ≤ r) ∨
       (c = "#000000".toList ∧ 0.5 < get_relative_luminance (255, 255, 255)) ∨
       (c = "#ffffff".toList ∧ ¬ 0.5 < get_relative_luminance (255, 255, 255))) ∧
      (∀ r0, calculate_contrast_ratio "#000000".toList "#ffffff".toList =
          .ok r0 → 4.5 ≤ r0 → c = rgb_to_hex (0, 0, 0)) :=
  C1_suggest_accessible_color_sound 5 100 5 (by norm_num) (by norm_num)
    (by norm_num) "#000000".toList "#ffffff".toList 4.5 (0, 0, 0)
    (255, 255, 255) parse_black parse_white

end Md2Pdf
